import Mathlib

/-!
# SceneManager: texture registry, material registry and shader-state binder

A shallow embedding of `Source/SceneManager.cpp`.

* The class members become the fields of `Scene.SceneManager`.
* The collaborators (image decoder, OpenGL, console) are observed through
  the list `calls`, to which every call is appended in program order.
* The shader program is the object behind `m_pShaderManager`; it records
  every uniform write in program order.  A NULL pointer is `none`.
* `float` is a type parameter `F`: the registry and the binder only copy
  such values. The one computation, the model matrix, goes through the glm
  library, which is a parameter (`Glm F`); `Glm.exact` is glm in exact
  arithmetic.
* A render pass is a list of `SceneCall`s executed in order by `run`.
* What the C++ leaves undefined (a store past the end of `m_textureIDs`,
  a call through a NULL `m_pShaderManager`) is a `Fault`.
-/

namespace Scene

/-! ## Data model -/

/-- Undefined behaviour the code can run into. -/
inductive Fault
  | outOfBounds (index : Nat)
  | nullPointer
  deriving DecidableEq, Repr

/-- The OpenGL enumerants the file uses. -/
inductive GLenum
  | GL_TEXTURE_2D
  | GL_TEXTURE_WRAP_S
  | GL_TEXTURE_WRAP_T
  | GL_TEXTURE_MIN_FILTER
  | GL_TEXTURE_MAG_FILTER
  | GL_REPEAT
  | GL_LINEAR
  | GL_RGB8
  | GL_RGB
  | GL_RGBA8
  | GL_RGBA
  | GL_UNSIGNED_BYTE
  deriving DecidableEq, Repr

/-- What `stbi_load` hands back on success: the pixel buffer (named by its
address) and the three output parameters. -/
structure Image where
  pixels : Nat
  width : Int
  height : Int
  colorChannels : Int
  deriving DecidableEq, Repr

/-- One call to a collaborator, with its arguments. The three `cout`
constructors are the three messages `CreateGLTexture` prints; the last
eleven are the methods of `m_basicMeshes` the scene uses. -/
inductive Call
  | stbi_set_flip_vertically_on_load (flag : Bool)
  | stbi_load (filename : String)
  | stbi_image_free (pixels : Nat)
  | coutLoaded (filename : String) (width height colorChannels : Int)
  | coutNotImplemented (colorChannels : Int)
  | coutCouldNotLoad (filename : String)
  | glGenTextures (n : Nat) (name : Nat)
  | glBindTexture (target : GLenum) (texture : Nat)
  | glTexParameteri (target pname param : GLenum)
  | glTexImage2D (target : GLenum) (level : Int) (internalformat : GLenum)
      (width height border : Int) (format type : GLenum) (pixels : Nat)
  | glGenerateMipmap (target : GLenum)
  | glActiveTexture (unit : Nat)
  | LoadPlaneMesh
  | LoadCylinderMesh
  | LoadSphereMesh
  | LoadBoxMesh
  | LoadTorusMesh
  | LoadPyramid4Mesh
  | DrawPlaneMesh
  | DrawBoxMesh
  | DrawPyramid4Mesh
  | DrawTorusMesh
  | DrawCylinderMesh
  deriving DecidableEq, Repr

/-- The struct `TEXTURE_INFO`: `ID` is a `GLuint` (its address is passed to
`glGenTextures`), held as a natural number. -/
structure TEXTURE_INFO where
  tag : String
  ID : Nat
  deriving DecidableEq, Repr

/-- The type `glm::vec2`. -/
structure vec2 (F : Type) where
  x : F
  y : F

/-- The type `glm::vec3`. -/
structure vec3 (F : Type) where
  x : F
  y : F
  z : F

/-- The type `glm::vec4`, with the colour names of its components. -/
structure vec4 (F : Type) where
  r : F
  g : F
  b : F
  a : F

/-- The type `glm::mat4`. -/
abbrev mat4 (F : Type) := Matrix (Fin 4) (Fin 4) F

/-- The functions of the glm library that `SetTransformations` calls. -/
structure Glm (F : Type) where
  radians : F → F
  scale : vec3 F → mat4 F
  rotate : F → vec3 F → mat4 F
  translate : vec3 F → mat4 F
  mul : mat4 F → mat4 F → mat4 F

/-- The struct `OBJECT_MATERIAL`. -/
structure OBJECT_MATERIAL (F : Type) where
  ambientColor : vec3 F
  ambientStrength : F
  diffuseColor : vec3 F
  specularColor : vec3 F
  shininess : F
  tag : String

/-- A value written to a uniform, tagged by the setter that wrote it. -/
inductive UniformValue (F : Type)
  | intValue (v : Int)
  | boolValue (v : Bool)
  | floatValue (v : F)
  | sampler2DValue (v : Int)
  | vec2Value (v : vec2 F)
  | vec3Value (v : vec3 F)
  | vec4Value (v : vec4 F)
  | mat4Value (v : mat4 F)

/-- The shader program collaborator: the uniform writes it has received, in
program order. -/
structure ShaderManager (F : Type) where
  uniformWrites : List (String × UniformValue F)

/-- The class `SceneManager`: its members, and the calls made so far. -/
structure SceneManager (F : Type) where
  m_pShaderManager : Option (ShaderManager F)
  m_textureIDs : List TEXTURE_INFO
  m_loadedTextures : Nat
  m_objectMaterials : List (OBJECT_MATERIAL F)
  calls : List Call

variable {F : Type}

/-! ## Globals and collaborators -/

def g_ModelName : String := "model"

def g_ColorValueName : String := "objectColor"

def g_TextureValueName : String := "objectTexture"

def g_UseTextureName : String := "bUseTexture"

/-- The conversion of a `GLuint` to `int` (two's complement, 32 bits). -/
def int_of_GLuint (x : Nat) : Int :=
  if x % 4294967296 < 2147483648 then ((x % 4294967296 : Nat) : Int)
  else ((x % 4294967296 : Nat) : Int) - 4294967296

/-- Append one uniform write to the shader's record. -/
def ShaderManager.write (sh : ShaderManager F) (name : String) (v : UniformValue F) :
    ShaderManager F :=
  { uniformWrites := sh.uniformWrites ++ [(name, v)] }

def ShaderManager.setIntValue (sh : ShaderManager F) (name : String) (v : Int) :
    ShaderManager F :=
  sh.write name (.intValue v)

def ShaderManager.setFloatValue (sh : ShaderManager F) (name : String) (v : F) :
    ShaderManager F :=
  sh.write name (.floatValue v)

def ShaderManager.setSampler2DValue (sh : ShaderManager F) (name : String) (v : Int) :
    ShaderManager F :=
  sh.write name (.sampler2DValue v)

def ShaderManager.setVec2Value (sh : ShaderManager F) (name : String) (v : vec2 F) :
    ShaderManager F :=
  sh.write name (.vec2Value v)

def ShaderManager.setVec3Value (sh : ShaderManager F) (name : String) (v : vec3 F) :
    ShaderManager F :=
  sh.write name (.vec3Value v)

def ShaderManager.setVec4Value (sh : ShaderManager F) (name : String) (v : vec4 F) :
    ShaderManager F :=
  sh.write name (.vec4Value v)

def ShaderManager.setMat4Value (sh : ShaderManager F) (name : String) (v : mat4 F) :
    ShaderManager F :=
  sh.write name (.mat4Value v)

/-- Record calls to the collaborators, in the order given. -/
def SceneManager.issue (s : SceneManager F) (cs : List Call) : SceneManager F :=
  { s with calls := s.calls ++ cs }

/-! ## Texture registry -/

/-- The constructor `SceneManager::SceneManager`: sixteen placeholder
entries (`ID = -1` stored in a `GLuint`), no texture loaded, no material. -/
def SceneManager.init (pShaderManager : Option (ShaderManager F)) : SceneManager F :=
  { m_pShaderManager := pShaderManager
    m_textureIDs := List.replicate 16 { tag := "/0", ID := 4294967295 }
    m_loadedTextures := 0
    m_objectMaterials := []
    calls := [] }

/-- The tail of `CreateGLTexture` after the upload (lines 120-132): mipmaps,
release of the pixel buffer, unbind, then the store into
`m_textureIDs[m_loadedTextures]`, which the code does not bound-check. -/
def SceneManager.registerTexture (s : SceneManager F) (img : Image) (textureID : Nat)
    (tag : String) : Except Fault Bool × SceneManager F :=
  let s := s.issue [.glGenerateMipmap .GL_TEXTURE_2D, .stbi_image_free img.pixels,
    .glBindTexture .GL_TEXTURE_2D 0]
  if s.m_loadedTextures < s.m_textureIDs.length then
    (.ok true,
      { s with
        m_textureIDs := s.m_textureIDs.set s.m_loadedTextures { tag := tag, ID := textureID }
        m_loadedTextures := s.m_loadedTextures + 1 })
  else
    (.error (.outOfBounds s.m_loadedTextures), s)

/-- The method `SceneManager::CreateGLTexture`. `image` is what `stbi_load`
returns for `filename` (`none` is NULL) and `textureID` the name that
`glGenTextures` writes. The result is the returned `bool`, or the fault the
call ran into, with the state reached. -/
def SceneManager.CreateGLTexture (s : SceneManager F) (filename : String) (tag : String)
    (image : Option Image) (textureID : Nat) : Except Fault Bool × SceneManager F :=
  let s := s.issue [.stbi_set_flip_vertically_on_load true, .stbi_load filename]
  match image with
  | some img =>
    let s := s.issue [.coutLoaded filename img.width img.height img.colorChannels,
      .glGenTextures 1 textureID,
      .glBindTexture .GL_TEXTURE_2D textureID,
      .glTexParameteri .GL_TEXTURE_2D .GL_TEXTURE_WRAP_S .GL_REPEAT,
      .glTexParameteri .GL_TEXTURE_2D .GL_TEXTURE_WRAP_T .GL_REPEAT,
      .glTexParameteri .GL_TEXTURE_2D .GL_TEXTURE_MIN_FILTER .GL_LINEAR,
      .glTexParameteri .GL_TEXTURE_2D .GL_TEXTURE_MAG_FILTER .GL_LINEAR]
    if img.colorChannels = 3 then
      (s.issue [.glTexImage2D .GL_TEXTURE_2D 0 .GL_RGB8 img.width img.height 0
        .GL_RGB .GL_UNSIGNED_BYTE img.pixels]).registerTexture img textureID tag
    else if img.colorChannels = 4 then
      (s.issue [.glTexImage2D .GL_TEXTURE_2D 0 .GL_RGBA8 img.width img.height 0
        .GL_RGBA .GL_UNSIGNED_BYTE img.pixels]).registerTexture img textureID tag
    else
      (.ok false, s.issue [.coutNotImplemented img.colorChannels])
  | none =>
    (.ok false, s.issue [.coutCouldNotLoad filename])

/-- The loop of `FindTextureID`, on its three local variables. -/
def SceneManager.FindTextureID.loop (s : SceneManager F) (tag : String) (textureID : Int)
    (index : Nat) (bFound : Bool) : Except Fault Int :=
  if h : index < s.m_loadedTextures ∧ bFound = false then
    match s.m_textureIDs[index]? with
    | none => .error (.outOfBounds index)
    | some entry =>
      if entry.tag = tag then
        SceneManager.FindTextureID.loop s tag (int_of_GLuint entry.ID) index true
      else
        SceneManager.FindTextureID.loop s tag textureID (index + 1) bFound
  else
    .ok textureID
termination_by (s.m_loadedTextures - index) + (if bFound then 0 else 1)
decreasing_by
  · obtain ⟨_, h2⟩ := h; subst h2; simp
  · obtain ⟨_, h2⟩ := h; subst h2; simp; omega

/-- The method `SceneManager::FindTextureID`. -/
def SceneManager.FindTextureID (s : SceneManager F) (tag : String) : Except Fault Int :=
  SceneManager.FindTextureID.loop s tag (-1) 0 false

/-- The loop of `FindTextureSlot`, on its three local variables. -/
def SceneManager.FindTextureSlot.loop (s : SceneManager F) (tag : String) (textureSlot : Int)
    (index : Nat) (bFound : Bool) : Except Fault Int :=
  if h : index < s.m_loadedTextures ∧ bFound = false then
    match s.m_textureIDs[index]? with
    | none => .error (.outOfBounds index)
    | some entry =>
      if entry.tag = tag then
        SceneManager.FindTextureSlot.loop s tag (index : Int) index true
      else
        SceneManager.FindTextureSlot.loop s tag textureSlot (index + 1) bFound
  else
    .ok textureSlot
termination_by (s.m_loadedTextures - index) + (if bFound then 0 else 1)
decreasing_by
  · obtain ⟨_, h2⟩ := h; subst h2; simp
  · obtain ⟨_, h2⟩ := h; subst h2; simp; omega

/-- The method `SceneManager::FindTextureSlot`. -/
def SceneManager.FindTextureSlot (s : SceneManager F) (tag : String) : Except Fault Int :=
  SceneManager.FindTextureSlot.loop s tag (-1) 0 false

/-! ## Material registry -/

/-- The loop of `FindMaterial`: the output parameter `material`, `index`
and `bFound`. On a match the five fields are copied; `tag` is not. -/
def SceneManager.FindMaterial.loop (s : SceneManager F) (tag : String)
    (material : OBJECT_MATERIAL F) (index : Nat) (bFound : Bool) : OBJECT_MATERIAL F :=
  if h : index < s.m_objectMaterials.length ∧ bFound = false then
    let entry := s.m_objectMaterials.get ⟨index, h.1⟩
    if entry.tag = tag then
      SceneManager.FindMaterial.loop s tag
        { material with
          ambientColor := entry.ambientColor
          ambientStrength := entry.ambientStrength
          diffuseColor := entry.diffuseColor
          specularColor := entry.specularColor
          shininess := entry.shininess }
        index true
    else
      SceneManager.FindMaterial.loop s tag material (index + 1) bFound
  else
    material
termination_by (s.m_objectMaterials.length - index) + (if bFound then 0 else 1)
decreasing_by
  · obtain ⟨_, h2⟩ := h; subst h2; simp
  · obtain ⟨_, h2⟩ := h; subst h2; simp; omega

/-- The method `SceneManager::FindMaterial`: the returned `bool` and the
output parameter `material` as the call leaves it. -/
def SceneManager.FindMaterial (s : SceneManager F) (tag : String)
    (material : OBJECT_MATERIAL F) : Bool × OBJECT_MATERIAL F :=
  if s.m_objectMaterials.length = 0 then
    (false, material)
  else
    (true, SceneManager.FindMaterial.loop s tag material 0 false)

/-! ## Shader-state binder -/

/-- The method `SceneManager::SetTransformations`. -/
def SceneManager.SetTransformations [OfScientific F] (glm : Glm F) (s : SceneManager F)
    (scaleXYZ : vec3 F) (XrotationDegrees YrotationDegrees ZrotationDegrees : F)
    (positionXYZ : vec3 F) : SceneManager F :=
  let scale := glm.scale scaleXYZ
  let rotationX := glm.rotate (glm.radians XrotationDegrees) ⟨1.0, 0.0, 0.0⟩
  let rotationY := glm.rotate (glm.radians YrotationDegrees) ⟨0.0, 1.0, 0.0⟩
  let rotationZ := glm.rotate (glm.radians ZrotationDegrees) ⟨0.0, 0.0, 1.0⟩
  let translation := glm.translate positionXYZ
  let modelView :=
    glm.mul (glm.mul (glm.mul (glm.mul translation rotationX) rotationY) rotationZ) scale
  match s.m_pShaderManager with
  | some sh => { s with m_pShaderManager := some (sh.setMat4Value g_ModelName modelView) }
  | none => s

/-- The method `SceneManager::SetShaderColor`. -/
def SceneManager.SetShaderColor (s : SceneManager F)
    (redColorValue greenColorValue blueColorValue alphaValue : F) : SceneManager F :=
  let currentColor : vec4 F :=
    { r := redColorValue, g := greenColorValue, b := blueColorValue, a := alphaValue }
  match s.m_pShaderManager with
  | some sh =>
    { s with
      m_pShaderManager :=
        some ((sh.setIntValue g_UseTextureName 0).setVec4Value g_ColorValueName currentColor) }
  | none => s

/-- The method `SceneManager::SetShaderTexture`. -/
def SceneManager.SetShaderTexture (s : SceneManager F) (textureTag : String) :
    Except Fault (SceneManager F) :=
  match s.m_pShaderManager with
  | some sh =>
    let sh := sh.setIntValue g_UseTextureName 1
    match s.FindTextureSlot textureTag with
    | .ok textureID =>
      .ok { s with m_pShaderManager := some (sh.setSampler2DValue g_TextureValueName textureID) }
    | .error e => .error e
  | none => .ok s

/-- The method `SceneManager::SetTextureUVScale`. -/
def SceneManager.SetTextureUVScale (s : SceneManager F) (u v : F) : SceneManager F :=
  match s.m_pShaderManager with
  | some sh => { s with m_pShaderManager := some (sh.setVec2Value "UVscale" { x := u, y := v }) }
  | none => s

/-- The method `SceneManager::SetShaderMaterial`. The local `material` is
declared without an initialiser: `material` is what that storage holds
when the method is entered. There is no NULL test on `m_pShaderManager`. -/
def SceneManager.SetShaderMaterial (s : SceneManager F) (materialTag : String)
    (material : OBJECT_MATERIAL F) : Except Fault (SceneManager F) :=
  if s.m_objectMaterials.length > 0 then
    let (bReturn, material) := s.FindMaterial materialTag material
    if bReturn = true then
      match s.m_pShaderManager with
      | none => .error .nullPointer
      | some sh =>
        let sh := sh.setVec3Value "material.ambientColor" material.ambientColor
        let sh := sh.setFloatValue "material.ambientStrength" material.ambientStrength
        let sh := sh.setVec3Value "material.diffuseColor" material.diffuseColor
        let sh := sh.setVec3Value "material.specularColor" material.specularColor
        let sh := sh.setFloatValue "material.shininess" material.shininess
        .ok { s with m_pShaderManager := some sh }
    else
      .ok s
  else
    .ok s

/-! ## Scene content -/

/-- The method `SceneManager::DefineObjectMaterials`: four presets pushed
back in this order. A literal stands for the `float` it is rounded to. -/
def SceneManager.DefineObjectMaterials [OfScientific F] (s : SceneManager F) : SceneManager F :=
  let goldMaterial : OBJECT_MATERIAL F :=
    { ambientColor := ⟨0.2, 0.2, 0.2⟩, ambientStrength := 0.3, diffuseColor := ⟨0.2, 0.2, 0.2⟩
      specularColor := ⟨0.5, 0.5, 0.5⟩, shininess := 22.0, tag := "metal" }
  let s := { s with m_objectMaterials := s.m_objectMaterials ++ [goldMaterial] }
  let woodMaterial : OBJECT_MATERIAL F :=
    { ambientColor := ⟨0.1, 0.1, 0.1⟩, ambientStrength := 0.2, diffuseColor := ⟨0.3, 0.3, 0.3⟩
      specularColor := ⟨0.1, 0.1, 0.1⟩, shininess := 0.3, tag := "wood" }
  let s := { s with m_objectMaterials := s.m_objectMaterials ++ [woodMaterial] }
  let grassMaterial : OBJECT_MATERIAL F :=
    { ambientColor := ⟨0.2, 0.3, 0.4⟩, ambientStrength := 0.3, diffuseColor := ⟨0.3, 0.2, 0.1⟩
      specularColor := ⟨0.4, 0.5, 0.6⟩, shininess := 1.0, tag := "ground" }
  let s := { s with m_objectMaterials := s.m_objectMaterials ++ [grassMaterial] }
  let rubberMaterial : OBJECT_MATERIAL F :=
    { ambientColor := ⟨0.2, 0.2, 0.3⟩, ambientStrength := 0.3, diffuseColor := ⟨0.4, 0.4, 0.5⟩
      specularColor := ⟨0.2, 0.2, 0.4⟩, shininess := 0.3, tag := "rubber" }
  { s with m_objectMaterials := s.m_objectMaterials ++ [rubberMaterial] }


/-! ## Binding and releasing the texture bank -/

/-- The enumerant `GL_TEXTURE0` (0x84C0). -/
def GL_TEXTURE0 : Nat := 33984

/-- The loop of `BindGLTextures`, on its counter `i`. -/
def SceneManager.BindGLTextures.loop (s : SceneManager F) (i : Nat) :
    Except Fault Unit × SceneManager F :=
  if h : i < s.m_loadedTextures then
    match s.m_textureIDs[i]? with
    | none => (.error (.outOfBounds i), s)
    | some entry =>
      SceneManager.BindGLTextures.loop
        (s.issue [.glActiveTexture (GL_TEXTURE0 + i), .glBindTexture .GL_TEXTURE_2D entry.ID])
        (i + 1)
  else
    (.ok (), s)
termination_by s.m_loadedTextures - i
decreasing_by
  simp only [SceneManager.issue]
  omega

/-- The method `SceneManager::BindGLTextures`. -/
def SceneManager.BindGLTextures (s : SceneManager F) : Except Fault Unit × SceneManager F :=
  SceneManager.BindGLTextures.loop s 0

/-- The loop of `DestroyGLTextures`, on its counter `i`: each pass calls
`glGenTextures(1, &m_textureIDs[i].ID)`, which writes a name into the slot.
`genName i` is the name written in pass `i`. -/
def SceneManager.DestroyGLTextures.loop (s : SceneManager F) (genName : Nat → Nat) (i : Nat) :
    Except Fault Unit × SceneManager F :=
  if h : i < s.m_loadedTextures then
    match s.m_textureIDs[i]? with
    | none => (.error (.outOfBounds i), s)
    | some entry =>
      SceneManager.DestroyGLTextures.loop
        { s with
          m_textureIDs := s.m_textureIDs.set i { entry with ID := genName i }
          calls := s.calls ++ [.glGenTextures 1 (genName i)] }
        genName (i + 1)
  else
    (.ok (), s)
termination_by s.m_loadedTextures - i
decreasing_by
  omega

/-- The method `SceneManager::DestroyGLTextures`. -/
def SceneManager.DestroyGLTextures (s : SceneManager F) (genName : Nat → Nat) :
    Except Fault Unit × SceneManager F :=
  SceneManager.DestroyGLTextures.loop s genName 0

/-! ## Shader state and sequences of calls -/

/-- The value a uniform holds in the shader: the last one written to that
name, if any. -/
def ShaderManager.uniform (sh : ShaderManager F) (name : String) : Option (UniformValue F) :=
  sh.uniformWrites.foldl (fun held w => if w.1 = name then some w.2 else held) none

/-- One statement of a render pass: a call of one of the five binder
methods, or a draw call on `m_basicMeshes`. `SetShaderMaterial` carries
what its local `material` holds on entry. -/
inductive SceneCall (F : Type)
  | SetTransformations (scaleXYZ : vec3 F)
      (XrotationDegrees YrotationDegrees ZrotationDegrees : F) (positionXYZ : vec3 F)
  | SetShaderColor (redColorValue greenColorValue blueColorValue alphaValue : F)
  | SetShaderTexture (textureTag : String)
  | SetTextureUVScale (u v : F)
  | SetShaderMaterial (materialTag : String) (material : OBJECT_MATERIAL F)
  | draw (mesh : Call)

/-- Execute one statement. -/
def SceneManager.call [OfScientific F] (glm : Glm F) (s : SceneManager F) :
    SceneCall F → Except Fault (SceneManager F)
  | .SetTransformations scaleXYZ x y z positionXYZ =>
    .ok (s.SetTransformations glm scaleXYZ x y z positionXYZ)
  | .SetShaderColor r g b a => .ok (s.SetShaderColor r g b a)
  | .SetShaderTexture textureTag => s.SetShaderTexture textureTag
  | .SetTextureUVScale u v => .ok (s.SetTextureUVScale u v)
  | .SetShaderMaterial materialTag material => s.SetShaderMaterial materialTag material
  | .draw mesh => .ok (s.issue [mesh])

/-- Execute statements in order; a fault ends the run. -/
def SceneManager.run [OfScientific F] (glm : Glm F) (s : SceneManager F) :
    List (SceneCall F) → Except Fault (SceneManager F)
  | [] => .ok s
  | c :: cs =>
    match s.call glm c with
    | .ok s' => s'.run glm cs
    | .error e => .error e

/-- The translation by `p`, as a matrix acting on column vectors. -/
def Translate [Zero F] [One F] (p : vec3 F) : mat4 F :=
  !![1, 0, 0, p.x; 0, 1, 0, p.y; 0, 0, 1, p.z; 0, 0, 0, 1]

/-- The scaling by `v`. -/
def Scale [Zero F] [One F] (v : vec3 F) : mat4 F :=
  !![v.x, 0, 0, 0; 0, v.y, 0, 0; 0, 0, v.z, 0; 0, 0, 0, 1]

/-- The rotation about the x axis by an angle of cosine `c` and sine `s`. -/
def RotateX [Zero F] [One F] [Neg F] (c s : F) : mat4 F :=
  !![1, 0, 0, 0; 0, c, -s, 0; 0, s, c, 0; 0, 0, 0, 1]

/-- The rotation about the y axis by an angle of cosine `c` and sine `s`. -/
def RotateY [Zero F] [One F] [Neg F] (c s : F) : mat4 F :=
  !![c, 0, s, 0; 0, 1, 0, 0; -s, 0, c, 0; 0, 0, 0, 1]

/-- The rotation about the z axis by an angle of cosine `c` and sine `s`. -/
def RotateZ [Zero F] [One F] [Neg F] (c s : F) : mat4 F :=
  !![c, -s, 0, 0; s, c, 0, 0; 0, 0, 1, 0; 0, 0, 0, 1]

/-- Modelled from the spec: the glm library is not part of the repository.
These are its functions in exact arithmetic over a field, given the
constant pi and the functions cosine, sine and square root: `radians` is
degrees times pi / 180, `rotate` normalises the axis and builds the rotation
about it (Rodrigues), and `mul` is the matrix product. -/
def Glm.exact [Field F] (pi : F) (cos sin sqrt : F → F) : Glm F :=
  { radians := fun degrees => degrees * (pi / 180)
    scale := fun v => Scale v
    rotate := fun angle v =>
      let c := cos angle
      let s := sin angle
      let n := sqrt (v.x * v.x + v.y * v.y + v.z * v.z)
      let ax := v.x / n
      let ay := v.y / n
      let az := v.z / n
      !![c + (1 - c) * ax * ax, (1 - c) * ax * ay - s * az, (1 - c) * ax * az + s * ay, 0;
         (1 - c) * ax * ay + s * az, c + (1 - c) * ay * ay, (1 - c) * ay * az - s * ax, 0;
         (1 - c) * ax * az - s * ay, (1 - c) * ay * az + s * ax, c + (1 - c) * az * az, 0;
         0, 0, 0, 1]
    translate := fun p => Translate p
    mul := fun a b => a * b }

/-! ## Lemmas on the lookup loops -/

theorem slot_loop_done (s : SceneManager F) (tag : String) (textureSlot : Int) (index : Nat) :
    SceneManager.FindTextureSlot.loop s tag textureSlot index true = .ok textureSlot := by
  rw [SceneManager.FindTextureSlot.loop]
  simp

theorem slot_loop_hit (s : SceneManager F) (tag : String) :
    ∀ (d index j : Nat) (textureSlot : Int) (e : TEXTURE_INFO), j = index + d →
      j < s.m_loadedTextures → s.m_textureIDs[j]? = some e → e.tag = tag →
      (∀ k e', index ≤ k → k < j → s.m_textureIDs[k]? = some e' → e'.tag ≠ tag) →
      SceneManager.FindTextureSlot.loop s tag textureSlot index false = .ok (j : Int) := by
  intro d
  induction d with
  | zero =>
    intro index j textureSlot e hj hlt hget htag _
    have hji : j = index := by omega
    subst hji
    rw [SceneManager.FindTextureSlot.loop]
    simp [hlt, hget, htag, slot_loop_done]
  | succ d ih =>
    intro index j textureSlot e hj hlt hget htag hbefore
    have hjlen : j < s.m_textureIDs.length := by
      rcases Nat.lt_or_ge j s.m_textureIDs.length with h | h
      · exact h
      · rw [List.getElem?_eq_none h] at hget; cases hget
    have hilen : index < s.m_textureIDs.length := by omega
    have hne : (s.m_textureIDs[index]).tag ≠ tag :=
      hbefore index _ (Nat.le_refl _) (by omega) (List.getElem?_eq_getElem hilen)
    rw [SceneManager.FindTextureSlot.loop]
    have hcond : index < s.m_loadedTextures := by omega
    simp only [hcond, true_and, dite_true, List.getElem?_eq_getElem hilen, hne, if_false]
    exact ih (index + 1) j textureSlot e (by omega) hlt hget htag
      (fun k e' hk hkj hk' => hbefore k e' (by omega) hkj hk')

theorem slot_loop_miss (s : SceneManager F) (tag : String)
    (hcap : s.m_loadedTextures ≤ s.m_textureIDs.length) :
    ∀ (d index : Nat) (textureSlot : Int), s.m_loadedTextures = index + d →
      (∀ k e', index ≤ k → k < s.m_loadedTextures → s.m_textureIDs[k]? = some e' → e'.tag ≠ tag) →
      SceneManager.FindTextureSlot.loop s tag textureSlot index false = .ok textureSlot := by
  intro d
  induction d with
  | zero =>
    intro index textureSlot hd _
    rw [SceneManager.FindTextureSlot.loop]
    have : ¬ index < s.m_loadedTextures := by omega
    simp [this]
  | succ d ih =>
    intro index textureSlot hd hall
    have hcond : index < s.m_loadedTextures := by omega
    have hilen : index < s.m_textureIDs.length := by omega
    have hne : (s.m_textureIDs[index]).tag ≠ tag :=
      hall index _ (Nat.le_refl _) hcond (List.getElem?_eq_getElem hilen)
    rw [SceneManager.FindTextureSlot.loop]
    simp only [hcond, true_and, dite_true, List.getElem?_eq_getElem hilen, hne, if_false]
    exact ih (index + 1) textureSlot (by omega)
      (fun k e' hk hkc hk' => hall k e' (by omega) hkc hk')


theorem id_loop_done (s : SceneManager F) (tag : String) (textureID : Int) (index : Nat) :
    SceneManager.FindTextureID.loop s tag textureID index true = .ok textureID := by
  rw [SceneManager.FindTextureID.loop]
  simp

theorem id_loop_hit (s : SceneManager F) (tag : String) :
    ∀ (d index j : Nat) (textureID : Int) (e : TEXTURE_INFO), j = index + d →
      j < s.m_loadedTextures → s.m_textureIDs[j]? = some e → e.tag = tag →
      (∀ k e', index ≤ k → k < j → s.m_textureIDs[k]? = some e' → e'.tag ≠ tag) →
      SceneManager.FindTextureID.loop s tag textureID index false = .ok (int_of_GLuint e.ID) := by
  intro d
  induction d with
  | zero =>
    intro index j textureID e hj hlt hget htag _
    have hji : j = index := by omega
    subst hji
    rw [SceneManager.FindTextureID.loop]
    simp [hlt, hget, htag, id_loop_done]
  | succ d ih =>
    intro index j textureID e hj hlt hget htag hbefore
    have hjlen : j < s.m_textureIDs.length := by
      rcases Nat.lt_or_ge j s.m_textureIDs.length with h | h
      · exact h
      · rw [List.getElem?_eq_none h] at hget; cases hget
    have hilen : index < s.m_textureIDs.length := by omega
    have hne : (s.m_textureIDs[index]).tag ≠ tag :=
      hbefore index _ (Nat.le_refl _) (by omega) (List.getElem?_eq_getElem hilen)
    rw [SceneManager.FindTextureID.loop]
    have hcond : index < s.m_loadedTextures := by omega
    simp only [hcond, true_and, dite_true, List.getElem?_eq_getElem hilen, hne, if_false]
    exact ih (index + 1) j textureID e (by omega) hlt hget htag
      (fun k e' hk hkj hk' => hbefore k e' (by omega) hkj hk')

theorem slot_loop_congr (s t : SceneManager F) (tag : String)
    (hT : t.m_textureIDs = s.m_textureIDs) (hN : t.m_loadedTextures = s.m_loadedTextures) :
    ∀ (n index : Nat) (textureSlot : Int) (bFound : Bool),
      (s.m_loadedTextures - index) + (if bFound then 0 else 1) ≤ n →
      SceneManager.FindTextureSlot.loop t tag textureSlot index bFound
        = SceneManager.FindTextureSlot.loop s tag textureSlot index bFound := by
  intro n
  induction n with
  | zero =>
    intro index textureSlot bFound hn
    cases bFound with
    | true => rw [slot_loop_done, slot_loop_done]
    | false => simp at hn
  | succ n ih =>
    intro index textureSlot bFound hn
    cases bFound with
    | true => rw [slot_loop_done, slot_loop_done]
    | false =>
      conv_lhs => rw [SceneManager.FindTextureSlot.loop]
      conv_rhs => rw [SceneManager.FindTextureSlot.loop]
      rw [hT, hN]
      by_cases hcond : index < s.m_loadedTextures
      · simp only [hcond, true_and, dite_true]
        cases hget : s.m_textureIDs[index]? with
        | none => rfl
        | some entry =>
          simp only
          by_cases htag : entry.tag = tag
          · simp only [htag, if_true, slot_loop_done]
          · simp only [htag, if_false]
            exact ih (index + 1) textureSlot false (by simp at hn ⊢; omega)
      · simp [hcond]

theorem id_loop_congr (s t : SceneManager F) (tag : String)
    (hT : t.m_textureIDs = s.m_textureIDs) (hN : t.m_loadedTextures = s.m_loadedTextures) :
    ∀ (n index : Nat) (textureID : Int) (bFound : Bool),
      (s.m_loadedTextures - index) + (if bFound then 0 else 1) ≤ n →
      SceneManager.FindTextureID.loop t tag textureID index bFound
        = SceneManager.FindTextureID.loop s tag textureID index bFound := by
  intro n
  induction n with
  | zero =>
    intro index textureID bFound hn
    cases bFound with
    | true => rw [id_loop_done, id_loop_done]
    | false => simp at hn
  | succ n ih =>
    intro index textureID bFound hn
    cases bFound with
    | true => rw [id_loop_done, id_loop_done]
    | false =>
      conv_lhs => rw [SceneManager.FindTextureID.loop]
      conv_rhs => rw [SceneManager.FindTextureID.loop]
      rw [hT, hN]
      by_cases hcond : index < s.m_loadedTextures
      · simp only [hcond, true_and, dite_true]
        cases hget : s.m_textureIDs[index]? with
        | none => rfl
        | some entry =>
          simp only
          by_cases htag : entry.tag = tag
          · simp only [htag, if_true, id_loop_done]
          · simp only [htag, if_false]
            exact ih (index + 1) textureID false (by simp at hn ⊢; omega)
      · simp [hcond]

/-- The two lookups read nothing but the texture bank and the count. -/
theorem find_congr (s t : SceneManager F) (tag : String)
    (hT : t.m_textureIDs = s.m_textureIDs) (hN : t.m_loadedTextures = s.m_loadedTextures) :
    t.FindTextureSlot tag = s.FindTextureSlot tag ∧ t.FindTextureID tag = s.FindTextureID tag :=
  ⟨slot_loop_congr s t tag hT hN _ 0 (-1) false (Nat.le_refl _),
   id_loop_congr s t tag hT hN _ 0 (-1) false (Nat.le_refl _)⟩


theorem mat_loop_done (s : SceneManager F) (tag : String) (material : OBJECT_MATERIAL F)
    (index : Nat) : SceneManager.FindMaterial.loop s tag material index true = material := by
  rw [SceneManager.FindMaterial.loop]
  simp

theorem mat_loop_hit (s : SceneManager F) (tag : String) :
    ∀ (d index j : Nat) (material e : OBJECT_MATERIAL F), j = index + d →
      s.m_objectMaterials[j]? = some e → e.tag = tag →
      (∀ k e', index ≤ k → k < j → s.m_objectMaterials[k]? = some e' → e'.tag ≠ tag) →
      SceneManager.FindMaterial.loop s tag material index false =
        { material with
          ambientColor := e.ambientColor
          ambientStrength := e.ambientStrength
          diffuseColor := e.diffuseColor
          specularColor := e.specularColor
          shininess := e.shininess } := by
  intro d
  induction d with
  | zero =>
    intro index j material e hj hget htag _
    have hji : j = index := by omega
    subst hji
    have hjlen : j < s.m_objectMaterials.length := by
      rcases Nat.lt_or_ge j s.m_objectMaterials.length with h | h
      · exact h
      · rw [List.getElem?_eq_none h] at hget; cases hget
    have he : s.m_objectMaterials.get ⟨j, hjlen⟩ = e := by
      rw [List.getElem?_eq_getElem hjlen] at hget
      simpa using hget
    rw [SceneManager.FindMaterial.loop, dif_pos ⟨hjlen, rfl⟩]
    simp only [he, htag, if_true, mat_loop_done]
  | succ d ih =>
    intro index j material e hj hget htag hbefore
    have hjlen : j < s.m_objectMaterials.length := by
      rcases Nat.lt_or_ge j s.m_objectMaterials.length with h | h
      · exact h
      · rw [List.getElem?_eq_none h] at hget; cases hget
    have hilen : index < s.m_objectMaterials.length := by omega
    have hne : (s.m_objectMaterials.get ⟨index, hilen⟩).tag ≠ tag :=
      hbefore index _ (Nat.le_refl _) (by omega) (by simp [List.getElem?_eq_getElem hilen])
    rw [SceneManager.FindMaterial.loop, dif_pos ⟨hilen, rfl⟩]
    simp only [hne, if_false]
    exact ih (index + 1) j material e (by omega) hget htag
      (fun k e' hk hkj hk' => hbefore k e' (by omega) hkj hk')

theorem mat_loop_miss (s : SceneManager F) (tag : String) :
    ∀ (d index : Nat) (material : OBJECT_MATERIAL F), s.m_objectMaterials.length = index + d →
      (∀ k e', index ≤ k → s.m_objectMaterials[k]? = some e' → e'.tag ≠ tag) →
      SceneManager.FindMaterial.loop s tag material index false = material := by
  intro d
  induction d with
  | zero =>
    intro index material hd _
    rw [SceneManager.FindMaterial.loop]
    have : ¬ index < s.m_objectMaterials.length := by omega
    simp [this]
  | succ d ih =>
    intro index material hd hall
    have hilen : index < s.m_objectMaterials.length := by omega
    have hne : (s.m_objectMaterials.get ⟨index, hilen⟩).tag ≠ tag :=
      hall index _ (Nat.le_refl _) (by simp [List.getElem?_eq_getElem hilen])
    rw [SceneManager.FindMaterial.loop, dif_pos ⟨hilen, rfl⟩]
    simp only [hne, if_false]
    exact ih (index + 1) material (by omega)
      (fun k e' hk hk' => hall k e' (by omega) hk')


/-- What a successful `CreateGLTexture` has done to the registry. -/
theorem create_ok_true (s s' : SceneManager F) (filename tag : String) (image : Option Image)
    (textureID : Nat) (hok : s.CreateGLTexture filename tag image textureID = (.ok true, s')) :
    s.m_loadedTextures < s.m_textureIDs.length ∧
    s'.m_textureIDs = s.m_textureIDs.set s.m_loadedTextures { tag := tag, ID := textureID } ∧
    s'.m_loadedTextures = s.m_loadedTextures + 1 ∧
    ∃ img, image = some img ∧ (img.colorChannels = 3 ∨ img.colorChannels = 4) := by
  cases image with
  | none => simp [SceneManager.CreateGLTexture] at hok
  | some img =>
    simp only [SceneManager.CreateGLTexture, SceneManager.registerTexture,
      SceneManager.issue] at hok
    by_cases h3 : img.colorChannels = 3
    · simp only [h3, if_true] at hok
      by_cases hlt : s.m_loadedTextures < s.m_textureIDs.length
      · simp only [hlt, if_true, Prod.mk.injEq, true_and] at hok
        subst hok
        exact ⟨hlt, rfl, rfl, img, rfl, Or.inl h3⟩
      · simp [hlt] at hok
    · by_cases h4 : img.colorChannels = 4
      · simp only [h4, if_true] at hok
        by_cases hlt : s.m_loadedTextures < s.m_textureIDs.length
        · simp [hlt] at hok
          subst hok
          exact ⟨hlt, rfl, rfl, img, rfl, Or.inr h4⟩
        · simp [hlt] at hok
      · simp [h3, h4] at hok

/-- Claim C1, amended. For every registry state in which no occupied slot
carries `tag` yet, after a call `CreateGLTexture(path, tag)` that returns
`true` the new entry sits at the old value of `m_loadedTextures`,
`FindTextureSlot(tag)` returns that index and `FindTextureID(tag)` returns
the new handle converted to `int` (the handle itself when it is below 2^31). -/
theorem C1_load_then_find (s s' : SceneManager F) (filename tag : String)
    (image : Option Image) (textureID : Nat)
    (hok : s.CreateGLTexture filename tag image textureID = (.ok true, s'))
    (hfresh : ∀ k e, k < s.m_loadedTextures → s.m_textureIDs[k]? = some e → e.tag ≠ tag) :
    s'.m_textureIDs[s.m_loadedTextures]? = some { tag := tag, ID := textureID } ∧
    s'.FindTextureSlot tag = .ok (s.m_loadedTextures : Int) ∧
    s'.FindTextureID tag = .ok (int_of_GLuint textureID) ∧
    (textureID < 2147483648 → s'.FindTextureID tag = .ok (textureID : Int)) := by
  obtain ⟨hlt, hT, hN, _⟩ := create_ok_true s s' filename tag image textureID hok
  have hnew : s'.m_textureIDs[s.m_loadedTextures]? = some { tag := tag, ID := textureID } := by
    rw [hT]; simp [hlt]
  have hold : ∀ k e', 0 ≤ k → k < s.m_loadedTextures → s'.m_textureIDs[k]? = some e' →
      e'.tag ≠ tag := by
    intro k e' _ hk hget
    rw [hT, List.getElem?_set_ne (by omega)] at hget
    exact hfresh k e' hk hget
  have hslot := slot_loop_hit s' tag s.m_loadedTextures 0 s.m_loadedTextures (-1) _
    (by omega) (by omega) hnew rfl hold
  have hid := id_loop_hit s' tag s.m_loadedTextures 0 s.m_loadedTextures (-1) _
    (by omega) (by omega) hnew rfl hold
  refine ⟨hnew, hslot, hid, ?_⟩
  intro hsmall
  rw [SceneManager.FindTextureID, hid]
  have hmod : textureID % 4294967296 = textureID := Nat.mod_eq_of_lt (by omega)
  simp [int_of_GLuint, hmod, hsmall]

/-- Witness for C1: the first load of the scene, on a fresh registry. -/
theorem C1_load_then_find_witness :
    ((SceneManager.init none : SceneManager ℚ).CreateGLTexture "green-shed.jpg" "shed"
        (some { pixels := 1, width := 2, height := 2, colorChannels := 4 }) 7).2.FindTextureSlot
      "shed" = .ok ((0 : Nat) : Int) :=
  (C1_load_then_find (SceneManager.init none : SceneManager ℚ) _ "green-shed.jpg" "shed"
    (some { pixels := 1, width := 2, height := 2, colorChannels := 4 }) 7
    (by simp [SceneManager.CreateGLTexture, SceneManager.registerTexture, SceneManager.issue,
      SceneManager.init])
    (by intro k e hk; simp [SceneManager.init] at hk)).2.1

/-- Claim C1 as stated fails. On a fresh registry load the tag "shed" twice,
with handles 1 and 2. The second call returns `true` and stores its entry
at slot 1, yet `FindTextureSlot("shed")` returns 0 and `FindTextureID("shed")`
returns 1: the lookups stop at the first entry carrying the tag. -/
theorem C1_counterexample :
    ∃ s1 s2 : SceneManager ℚ,
      (SceneManager.init none).CreateGLTexture "a.jpg" "shed"
        (some { pixels := 1, width := 2, height := 2, colorChannels := 4 }) 1 = (.ok true, s1) ∧
      s1.CreateGLTexture "b.jpg" "shed"
        (some { pixels := 2, width := 2, height := 2, colorChannels := 4 }) 2 = (.ok true, s2) ∧
      s1.m_loadedTextures = 1 ∧
      s2.m_textureIDs[1]? = some { tag := "shed", ID := 2 } ∧
      s2.FindTextureSlot "shed" = .ok 0 ∧
      s2.FindTextureID "shed" = .ok 1 ∧
      s2.FindTextureSlot "shed" ≠ .ok (s1.m_loadedTextures : Int) ∧
      s2.FindTextureID "shed" ≠ .ok (int_of_GLuint 2) := by
  refine ⟨_, _, rfl, rfl, ?_, ?_, ?_, ?_, ?_, ?_⟩ <;>
    simp [SceneManager.CreateGLTexture, SceneManager.registerTexture, SceneManager.issue,
      SceneManager.init, SceneManager.FindTextureSlot, SceneManager.FindTextureSlot.loop,
      SceneManager.FindTextureID, SceneManager.FindTextureID.loop, int_of_GLuint]


/-- Claim C2, a defect of the code. With 16 textures loaded in the 16-element bank, a
call of `CreateGLTexture` whose image decodes with 3 or 4 channels does not
return failure: it reaches the store `m_textureIDs[16]`, one past the end of
the array, with no capacity test in between. -/
theorem C2_full_registry_not_rejected (s : SceneManager F) (filename tag : String)
    (img : Image) (textureID : Nat)
    (hfull : s.m_loadedTextures = 16) (hlen : s.m_textureIDs.length = 16)
    (hch : img.colorChannels = 3 ∨ img.colorChannels = 4) :
    (s.CreateGLTexture filename tag (some img) textureID).1 = .error (.outOfBounds 16) ∧
    (s.CreateGLTexture filename tag (some img) textureID).1 ≠ .ok false := by
  rcases hch with h | h <;>
    simp [SceneManager.CreateGLTexture, SceneManager.registerTexture, SceneManager.issue,
      h, hfull, hlen]

/-- Witness for C2: a bank holding sixteen loaded textures, then a
three-channel image. -/
theorem C2_full_registry_not_rejected_witness :
    (({ m_pShaderManager := none
        m_textureIDs := (List.range 16).map (fun i => { tag := "t" ++ toString i, ID := i + 1 })
        m_loadedTextures := 16
        m_objectMaterials := []
        calls := [] } : SceneManager ℚ).CreateGLTexture "extra.jpg" "extra"
      (some { pixels := 1, width := 2, height := 2, colorChannels := 3 }) 17).1
      = .error (.outOfBounds 16) :=
  (C2_full_registry_not_rejected _ "extra.jpg" "extra"
    { pixels := 1, width := 2, height := 2, colorChannels := 3 } 17 rfl (by simp)
    (Or.inl rfl)).1

/-- Claim C3. When the decode fails (`stbi_load` returns NULL) `CreateGLTexture`
returns `false` and leaves the count and every slot as they were, so every
later `FindTextureSlot` / `FindTextureID` answers as before. Scenario: on a
fresh registry a successful RGBA load tagged "shed" then a failed load tagged
"x" leave one entry; `FindTextureSlot("x")` is -1 and `FindTextureSlot("shed")`
is 0. -/
theorem C3_decode_failure_keeps_registry :
    (∀ (s : SceneManager F) (filename tag : String) (textureID : Nat),
      (s.CreateGLTexture filename tag none textureID).1 = .ok false ∧
      (s.CreateGLTexture filename tag none textureID).2.m_textureIDs = s.m_textureIDs ∧
      (s.CreateGLTexture filename tag none textureID).2.m_loadedTextures = s.m_loadedTextures ∧
      ∀ t : String,
        (s.CreateGLTexture filename tag none textureID).2.FindTextureSlot t = s.FindTextureSlot t ∧
        (s.CreateGLTexture filename tag none textureID).2.FindTextureID t = s.FindTextureID t) ∧
    (∃ s1 s2 : SceneManager F,
      (SceneManager.init none).CreateGLTexture "a.png" "shed"
        (some { pixels := 1, width := 2, height := 2, colorChannels := 4 }) 1 = (.ok true, s1) ∧
      s1.CreateGLTexture "missing.png" "x" none 0 = (.ok false, s2) ∧
      s2.m_loadedTextures = 1 ∧
      s2.m_textureIDs[0]? = some { tag := "shed", ID := 1 } ∧
      Call.coutCouldNotLoad "missing.png" ∈ s2.calls ∧
      s2.FindTextureSlot "x" = .ok (-1) ∧
      s2.FindTextureSlot "shed" = .ok 0) := by
  constructor
  · intro s filename tag textureID
    refine ⟨rfl, rfl, rfl, fun t => ?_⟩
    exact find_congr s _ t rfl rfl
  · refine ⟨_, _, rfl, rfl, ?_, ?_, ?_, ?_, ?_⟩ <;>
      simp [SceneManager.CreateGLTexture, SceneManager.registerTexture, SceneManager.issue,
        SceneManager.init, SceneManager.FindTextureSlot, SceneManager.FindTextureSlot.loop]


/-- Claim C5. For a decoded image `CreateGLTexture` makes, after the set-up
calls, exactly one upload: `GL_RGB8`/`GL_RGB` when the channel count is 3,
`GL_RGBA8`/`GL_RGBA` when it is 4. For every other channel count it prints
the "not implemented" message, uploads nothing, returns `false` and leaves
the count and all slots unchanged. -/
theorem C5_channel_count_dispatch (s : SceneManager F) (filename tag : String) (img : Image)
    (textureID : Nat) :
    (img.colorChannels = 3 →
      (s.CreateGLTexture filename tag (some img) textureID).2.calls = s.calls ++
        [.stbi_set_flip_vertically_on_load true, .stbi_load filename,
         .coutLoaded filename img.width img.height 3,
         .glGenTextures 1 textureID,
         .glBindTexture .GL_TEXTURE_2D textureID,
         .glTexParameteri .GL_TEXTURE_2D .GL_TEXTURE_WRAP_S .GL_REPEAT,
         .glTexParameteri .GL_TEXTURE_2D .GL_TEXTURE_WRAP_T .GL_REPEAT,
         .glTexParameteri .GL_TEXTURE_2D .GL_TEXTURE_MIN_FILTER .GL_LINEAR,
         .glTexParameteri .GL_TEXTURE_2D .GL_TEXTURE_MAG_FILTER .GL_LINEAR,
         .glTexImage2D .GL_TEXTURE_2D 0 .GL_RGB8 img.width img.height 0
           .GL_RGB .GL_UNSIGNED_BYTE img.pixels,
         .glGenerateMipmap .GL_TEXTURE_2D, .stbi_image_free img.pixels,
         .glBindTexture .GL_TEXTURE_2D 0]) ∧
    (img.colorChannels = 4 →
      (s.CreateGLTexture filename tag (some img) textureID).2.calls = s.calls ++
        [.stbi_set_flip_vertically_on_load true, .stbi_load filename,
         .coutLoaded filename img.width img.height 4,
         .glGenTextures 1 textureID,
         .glBindTexture .GL_TEXTURE_2D textureID,
         .glTexParameteri .GL_TEXTURE_2D .GL_TEXTURE_WRAP_S .GL_REPEAT,
         .glTexParameteri .GL_TEXTURE_2D .GL_TEXTURE_WRAP_T .GL_REPEAT,
         .glTexParameteri .GL_TEXTURE_2D .GL_TEXTURE_MIN_FILTER .GL_LINEAR,
         .glTexParameteri .GL_TEXTURE_2D .GL_TEXTURE_MAG_FILTER .GL_LINEAR,
         .glTexImage2D .GL_TEXTURE_2D 0 .GL_RGBA8 img.width img.height 0
           .GL_RGBA .GL_UNSIGNED_BYTE img.pixels,
         .glGenerateMipmap .GL_TEXTURE_2D, .stbi_image_free img.pixels,
         .glBindTexture .GL_TEXTURE_2D 0]) ∧
    (img.colorChannels ≠ 3 → img.colorChannels ≠ 4 →
      (s.CreateGLTexture filename tag (some img) textureID).1 = .ok false ∧
      (s.CreateGLTexture filename tag (some img) textureID).2.m_textureIDs = s.m_textureIDs ∧
      (s.CreateGLTexture filename tag (some img) textureID).2.m_loadedTextures
        = s.m_loadedTextures ∧
      (s.CreateGLTexture filename tag (some img) textureID).2.calls = s.calls ++
        [.stbi_set_flip_vertically_on_load true, .stbi_load filename,
         .coutLoaded filename img.width img.height img.colorChannels,
         .glGenTextures 1 textureID,
         .glBindTexture .GL_TEXTURE_2D textureID,
         .glTexParameteri .GL_TEXTURE_2D .GL_TEXTURE_WRAP_S .GL_REPEAT,
         .glTexParameteri .GL_TEXTURE_2D .GL_TEXTURE_WRAP_T .GL_REPEAT,
         .glTexParameteri .GL_TEXTURE_2D .GL_TEXTURE_MIN_FILTER .GL_LINEAR,
         .glTexParameteri .GL_TEXTURE_2D .GL_TEXTURE_MAG_FILTER .GL_LINEAR,
         .coutNotImplemented img.colorChannels]) := by
  refine ⟨?_, ?_, ?_⟩
  · intro h3
    by_cases hlt : s.m_loadedTextures < s.m_textureIDs.length <;>
      simp [SceneManager.CreateGLTexture, SceneManager.registerTexture, SceneManager.issue,
        h3, hlt]
  · intro h4
    by_cases hlt : s.m_loadedTextures < s.m_textureIDs.length <;>
      simp [SceneManager.CreateGLTexture, SceneManager.registerTexture, SceneManager.issue,
        h4, hlt]
  · intro h3 h4
    simp [SceneManager.CreateGLTexture, SceneManager.issue, h3, h4]

/-- Witness for C5: a three-channel, a four-channel and a one-channel image
on a fresh registry. -/
theorem C5_channel_count_dispatch_witness :
    Call.glTexImage2D .GL_TEXTURE_2D 0 .GL_RGB8 8 8 0 .GL_RGB .GL_UNSIGNED_BYTE 1 ∈
      ((SceneManager.init none : SceneManager ℚ).CreateGLTexture "a.jpg" "a"
        (some { pixels := 1, width := 8, height := 8, colorChannels := 3 }) 1).2.calls ∧
    Call.glTexImage2D .GL_TEXTURE_2D 0 .GL_RGBA8 8 8 0 .GL_RGBA .GL_UNSIGNED_BYTE 1 ∈
      ((SceneManager.init none : SceneManager ℚ).CreateGLTexture "a.png" "a"
        (some { pixels := 1, width := 8, height := 8, colorChannels := 4 }) 1).2.calls ∧
    ((SceneManager.init none : SceneManager ℚ).CreateGLTexture "gray.png" "a"
        (some { pixels := 1, width := 8, height := 8, colorChannels := 1 }) 1).1 = .ok false := by
  refine ⟨?_, ?_, ?_⟩
  · rw [(C5_channel_count_dispatch (SceneManager.init none : SceneManager ℚ) "a.jpg" "a"
      { pixels := 1, width := 8, height := 8, colorChannels := 3 } 1).1 rfl]
    simp
  · rw [(C5_channel_count_dispatch (SceneManager.init none : SceneManager ℚ) "a.png" "a"
      { pixels := 1, width := 8, height := 8, colorChannels := 4 } 1).2.1 rfl]
    simp
  · exact ((C5_channel_count_dispatch (SceneManager.init none : SceneManager ℚ) "gray.png" "a"
      { pixels := 1, width := 8, height := 8, colorChannels := 1 } 1).2.2
        (by decide) (by decide)).1

/-- Claim C6, a defect of the code. For a decoded image with one channel (grey scale)
`CreateGLTexture` returns `false` from the "not implemented" branch without
a call of `stbi_image_free`: the calls it makes are exactly the ten listed,
and the pixel buffer is never released. -/
theorem C6_unsupported_format_leaks_buffer (s : SceneManager F) (filename tag : String)
    (pixels : Nat) (width height : Int) (textureID : Nat) :
    (s.CreateGLTexture filename tag
      (some { pixels := pixels, width := width, height := height, colorChannels := 1 })
      textureID).1 = .ok false ∧
    (s.CreateGLTexture filename tag
      (some { pixels := pixels, width := width, height := height, colorChannels := 1 })
      textureID).2.calls = s.calls ++
        [.stbi_set_flip_vertically_on_load true, .stbi_load filename,
         .coutLoaded filename width height 1,
         .glGenTextures 1 textureID,
         .glBindTexture .GL_TEXTURE_2D textureID,
         .glTexParameteri .GL_TEXTURE_2D .GL_TEXTURE_WRAP_S .GL_REPEAT,
         .glTexParameteri .GL_TEXTURE_2D .GL_TEXTURE_WRAP_T .GL_REPEAT,
         .glTexParameteri .GL_TEXTURE_2D .GL_TEXTURE_MIN_FILTER .GL_LINEAR,
         .glTexParameteri .GL_TEXTURE_2D .GL_TEXTURE_MAG_FILTER .GL_LINEAR,
         .coutNotImplemented 1] ∧
    List.count (Call.stbi_image_free pixels)
      (((SceneManager.init none : SceneManager F).CreateGLTexture filename tag
        (some { pixels := pixels, width := width, height := height, colorChannels := 1 })
        textureID).2.calls) = 0 := by
  refine ⟨?_, ?_, ?_⟩ <;>
    simp [SceneManager.CreateGLTexture, SceneManager.issue, SceneManager.init]


/-- The flag `FindMaterial` returns tells only whether the registry is
empty. -/
theorem find_material_flag (s : SceneManager F) (tag : String)
    (material : OBJECT_MATERIAL F) :
    (s.FindMaterial tag material).1 = false ↔ s.m_objectMaterials = [] := by
  unfold SceneManager.FindMaterial
  by_cases h : s.m_objectMaterials.length = 0
  · simp [h, List.length_eq_zero.mp h]
  · have hne : s.m_objectMaterials ≠ [] := fun hnil => h (by simp [hnil])
    simp [h, hne]

theorem find_material_nonempty (s : SceneManager F) (tag : String)
    (material : OBJECT_MATERIAL F) (hne : s.m_objectMaterials ≠ []) :
    (s.FindMaterial tag material).1 = true := by
  cases hb : (s.FindMaterial tag material).1 with
  | true => rfl
  | false => exact absurd ((find_material_flag s tag material).mp hb) hne

/-- A lookup that matches no entry leaves the output parameter alone. -/
theorem find_material_miss (s : SceneManager F) (tag : String)
    (material : OBJECT_MATERIAL F) (hall : ∀ e ∈ s.m_objectMaterials, e.tag ≠ tag) :
    (s.FindMaterial tag material).2 = material := by
  unfold SceneManager.FindMaterial
  by_cases h : s.m_objectMaterials.length = 0
  · simp [h]
  · simp only [h, if_false]
    exact mat_loop_miss s tag s.m_objectMaterials.length 0 material (by omega)
      (fun k e' _ hget => hall e' (List.getElem?_mem hget))

/-- Claim C7. `FindMaterial(tag, material)` returns `false` exactly when the
material registry is empty; on a non-empty registry it returns `true` for
every tag, and when no entry carries `tag` the output parameter is left
exactly as the caller passed it. -/
theorem C7_find_material_flag (s : SceneManager F) (tag : String)
    (material : OBJECT_MATERIAL F) :
    ((s.FindMaterial tag material).1 = false ↔ s.m_objectMaterials = []) ∧
    (s.m_objectMaterials ≠ [] → (s.FindMaterial tag material).1 = true) ∧
    ((∀ e ∈ s.m_objectMaterials, e.tag ≠ tag) → (s.FindMaterial tag material).2 = material) :=
  ⟨find_material_flag s tag material, find_material_nonempty s tag material,
    find_material_miss s tag material⟩

/-- Witness for C7: the four presets are defined and "glass" is looked up
with an all-zero output parameter, which comes back unchanged with `true`. -/
theorem C7_find_material_flag_witness :
    ((SceneManager.init none : SceneManager ℚ).DefineObjectMaterials.FindMaterial "glass"
        { ambientColor := ⟨0, 0, 0⟩, ambientStrength := 0, diffuseColor := ⟨0, 0, 0⟩
          specularColor := ⟨0, 0, 0⟩, shininess := 0, tag := "" }).1 = true ∧
    ((SceneManager.init none : SceneManager ℚ).DefineObjectMaterials.FindMaterial "glass"
        { ambientColor := ⟨0, 0, 0⟩, ambientStrength := 0, diffuseColor := ⟨0, 0, 0⟩
          specularColor := ⟨0, 0, 0⟩, shininess := 0, tag := "" }).2 =
        { ambientColor := ⟨0, 0, 0⟩, ambientStrength := 0, diffuseColor := ⟨0, 0, 0⟩
          specularColor := ⟨0, 0, 0⟩, shininess := 0, tag := "" } :=
  ⟨(C7_find_material_flag _ "glass" _).2.1
      (by simp [SceneManager.DefineObjectMaterials, SceneManager.init]),
    (C7_find_material_flag _ "glass" _).2.2
      (by simp [SceneManager.DefineObjectMaterials, SceneManager.init])⟩

/-- Claim C8. When some entry carries `tag`, `FindMaterial` returns `true` and
sets the five output fields to those of the first such entry in insertion
order (a later entry with the same tag is never returned). In particular,
after an entry whose tag is not yet present is pushed back, looking that tag
up returns exactly the fields pushed. -/
theorem C8_find_material_first_match (s : SceneManager F) (tag : String)
    (material : OBJECT_MATERIAL F) :
    (∀ (i : Nat) (e : OBJECT_MATERIAL F), s.m_objectMaterials[i]? = some e → e.tag = tag →
      (∀ k e', k < i → s.m_objectMaterials[k]? = some e' → e'.tag ≠ tag) →
      s.FindMaterial tag material =
        (true, { material with
          ambientColor := e.ambientColor
          ambientStrength := e.ambientStrength
          diffuseColor := e.diffuseColor
          specularColor := e.specularColor
          shininess := e.shininess })) ∧
    (∀ e : OBJECT_MATERIAL F, e.tag = tag → (∀ e' ∈ s.m_objectMaterials, e'.tag ≠ tag) →
      ({ s with m_objectMaterials := s.m_objectMaterials ++ [e] } : SceneManager F).FindMaterial
        tag material =
        (true, { material with
          ambientColor := e.ambientColor
          ambientStrength := e.ambientStrength
          diffuseColor := e.diffuseColor
          specularColor := e.specularColor
          shininess := e.shininess })) := by
  have key : ∀ (t : SceneManager F) (i : Nat) (e : OBJECT_MATERIAL F),
      t.m_objectMaterials[i]? = some e → e.tag = tag →
      (∀ k e', k < i → t.m_objectMaterials[k]? = some e' → e'.tag ≠ tag) →
      t.FindMaterial tag material =
        (true, { material with
          ambientColor := e.ambientColor
          ambientStrength := e.ambientStrength
          diffuseColor := e.diffuseColor
          specularColor := e.specularColor
          shininess := e.shininess }) := by
    intro t i e hget htag hfirst
    have hlen : t.m_objectMaterials.length ≠ 0 := by
      intro h0
      rw [List.length_eq_zero.mp h0] at hget
      simp at hget
    unfold SceneManager.FindMaterial
    simp only [hlen, if_false]
    rw [mat_loop_hit t tag i 0 i material e (by omega) hget htag
      (fun k e' _ hk hk' => hfirst k e' hk hk')]
  refine ⟨key s, ?_⟩
  intro e htag hfresh
  refine key _ s.m_objectMaterials.length e (by simp) htag ?_
  intro k e' hk hget
  have hget' : s.m_objectMaterials[k]? = some e' := by
    simpa [List.getElem?_append_left hk] using hget
  exact hfresh e' (List.getElem?_mem hget')

/-- Witness for C8: the presets "metal", "wood", "ground" and "rubber" of
`DefineObjectMaterials` are each returned with the fields they were defined
with. -/
theorem C8_find_material_first_match_witness :
    (SceneManager.init none : SceneManager ℚ).DefineObjectMaterials.FindMaterial "metal"
        { ambientColor := ⟨0, 0, 0⟩, ambientStrength := 0, diffuseColor := ⟨0, 0, 0⟩
          specularColor := ⟨0, 0, 0⟩, shininess := 0, tag := "" } =
        (true, { ambientColor := ⟨0.2, 0.2, 0.2⟩, ambientStrength := 0.3
                 diffuseColor := ⟨0.2, 0.2, 0.2⟩, specularColor := ⟨0.5, 0.5, 0.5⟩
                 shininess := 22.0, tag := "" }) ∧
      (SceneManager.init none : SceneManager ℚ).DefineObjectMaterials.FindMaterial "wood"
        { ambientColor := ⟨0, 0, 0⟩, ambientStrength := 0, diffuseColor := ⟨0, 0, 0⟩
          specularColor := ⟨0, 0, 0⟩, shininess := 0, tag := "" } =
        (true, { ambientColor := ⟨0.1, 0.1, 0.1⟩, ambientStrength := 0.2
                 diffuseColor := ⟨0.3, 0.3, 0.3⟩, specularColor := ⟨0.1, 0.1, 0.1⟩
                 shininess := 0.3, tag := "" }) ∧
      (SceneManager.init none : SceneManager ℚ).DefineObjectMaterials.FindMaterial "ground"
        { ambientColor := ⟨0, 0, 0⟩, ambientStrength := 0, diffuseColor := ⟨0, 0, 0⟩
          specularColor := ⟨0, 0, 0⟩, shininess := 0, tag := "" } =
        (true, { ambientColor := ⟨0.2, 0.3, 0.4⟩, ambientStrength := 0.3
                 diffuseColor := ⟨0.3, 0.2, 0.1⟩, specularColor := ⟨0.4, 0.5, 0.6⟩
                 shininess := 1.0, tag := "" }) ∧
      (SceneManager.init none : SceneManager ℚ).DefineObjectMaterials.FindMaterial "rubber"
        { ambientColor := ⟨0, 0, 0⟩, ambientStrength := 0, diffuseColor := ⟨0, 0, 0⟩
          specularColor := ⟨0, 0, 0⟩, shininess := 0, tag := "" } =
        (true, { ambientColor := ⟨0.2, 0.2, 0.3⟩, ambientStrength := 0.3
                 diffuseColor := ⟨0.4, 0.4, 0.5⟩, specularColor := ⟨0.2, 0.2, 0.4⟩
                 shininess := 0.3, tag := "" }) := by
  have hm : (SceneManager.init none : SceneManager ℚ).DefineObjectMaterials.m_objectMaterials =
      [{ ambientColor := ⟨0.2, 0.2, 0.2⟩, ambientStrength := 0.3
         diffuseColor := ⟨0.2, 0.2, 0.2⟩, specularColor := ⟨0.5, 0.5, 0.5⟩
         shininess := 22.0, tag := "metal" },
       { ambientColor := ⟨0.1, 0.1, 0.1⟩, ambientStrength := 0.2
         diffuseColor := ⟨0.3, 0.3, 0.3⟩, specularColor := ⟨0.1, 0.1, 0.1⟩
         shininess := 0.3, tag := "wood" },
       { ambientColor := ⟨0.2, 0.3, 0.4⟩, ambientStrength := 0.3
         diffuseColor := ⟨0.3, 0.2, 0.1⟩, specularColor := ⟨0.4, 0.5, 0.6⟩
         shininess := 1.0, tag := "ground" },
       { ambientColor := ⟨0.2, 0.2, 0.3⟩, ambientStrength := 0.3
         diffuseColor := ⟨0.4, 0.4, 0.5⟩, specularColor := ⟨0.2, 0.2, 0.4⟩
         shininess := 0.3, tag := "rubber" }] := rfl
  refine ⟨?_, ?_, ?_, ?_⟩
  · exact (C8_find_material_first_match _ "metal" _).1 0 _ (by rw [hm]; rfl) rfl
      (by intro k e' hk; omega)
  · exact (C8_find_material_first_match _ "wood" _).1 1 _ (by rw [hm]; rfl) rfl
      (by
        intro k e' hk hget
        rw [hm] at hget
        have hk0 : k = 0 := by omega
        subst hk0
        simp at hget
        subst hget
        decide)
  · exact (C8_find_material_first_match _ "ground" _).1 2 _ (by rw [hm]; rfl) rfl
      (by
        intro k e' hk hget
        rw [hm] at hget
        have hk' : k = 0 ∨ k = 1 := by omega
        rcases hk' with h | h <;> subst h <;> simp at hget <;> subst hget <;> decide)
  · exact (C8_find_material_first_match _ "rubber" _).1 3 _ (by rw [hm]; rfl) rfl
      (by
        intro k e' hk hget
        rw [hm] at hget
        have hk' : k = 0 ∨ k = 1 ∨ k = 2 := by omega
        rcases hk' with h | h | h <;> subst h <;> simp at hget <;> subst hget <;> decide)


/-- Claim C9, a defect of the code. With a shader bound and a non-empty material
registry in which no entry carries `tag`, `SetShaderMaterial(tag)` does
write: `FindMaterial` reports `true`, and the five material uniforms are
written from the local `material`, which nothing has assigned. -/
theorem C9_material_miss_still_writes (s : SceneManager F) (sh : ShaderManager F)
    (tag : String) (material : OBJECT_MATERIAL F)
    (hsh : s.m_pShaderManager = some sh) (hne : s.m_objectMaterials ≠ [])
    (hmiss : ∀ e ∈ s.m_objectMaterials, e.tag ≠ tag) :
    s.SetShaderMaterial tag material =
      .ok { s with
        m_pShaderManager := some
          { uniformWrites := sh.uniformWrites ++
              [("material.ambientColor", .vec3Value material.ambientColor),
               ("material.ambientStrength", .floatValue material.ambientStrength),
               ("material.diffuseColor", .vec3Value material.diffuseColor),
               ("material.specularColor", .vec3Value material.specularColor),
               ("material.shininess", .floatValue material.shininess)] } } := by
  have hlen : s.m_objectMaterials.length > 0 := List.length_pos.mpr hne
  have hpair : s.FindMaterial tag material = (true, material) :=
    Prod.ext (find_material_nonempty s tag material hne) (find_material_miss s tag material hmiss)
  unfold SceneManager.SetShaderMaterial
  simp [hlen, hpair, hsh, ShaderManager.setVec3Value, ShaderManager.setFloatValue,
    ShaderManager.write]


/-- Witness for C9: a shader is bound, the four presets are defined, and the
tag "glass", which none of them carries, is set while the local holds
(1, 2, 3), 4, (5, 6, 7), (8, 9, 10), 11: those five values are written. -/
theorem C9_material_miss_still_writes_witness :
    (SceneManager.init (some { uniformWrites := [] }) :
        SceneManager ℚ).DefineObjectMaterials.SetShaderMaterial "glass"
        { ambientColor := ⟨1, 2, 3⟩, ambientStrength := 4, diffuseColor := ⟨5, 6, 7⟩
          specularColor := ⟨8, 9, 10⟩, shininess := 11, tag := "" } =
      .ok { (SceneManager.init (some { uniformWrites := [] }) :
          SceneManager ℚ).DefineObjectMaterials with
        m_pShaderManager := some
          { uniformWrites := [] ++
              [("material.ambientColor", .vec3Value ⟨1, 2, 3⟩),
               ("material.ambientStrength", .floatValue 4),
               ("material.diffuseColor", .vec3Value ⟨5, 6, 7⟩),
               ("material.specularColor", .vec3Value ⟨8, 9, 10⟩),
               ("material.shininess", .floatValue 11)] } } :=
  C9_material_miss_still_writes _ { uniformWrites := [] } "glass" _ rfl
    (by simp [SceneManager.DefineObjectMaterials, SceneManager.init])
    (by simp [SceneManager.DefineObjectMaterials, SceneManager.init])

/-- Claim C10, a defect of the code. With `m_pShaderManager` NULL, `SetTransformations`,
`SetShaderColor`, `SetShaderTexture` and `SetTextureUVScale` change nothing,
and so does `SetShaderMaterial` while the material registry is empty. Once a
material is defined, `SetShaderMaterial` has no NULL test: after
`DefineObjectMaterials` the call `SetShaderMaterial("metal")` reaches
`m_pShaderManager->setVec3Value` through the NULL pointer. -/
theorem C10_null_shader [OfScientific F] (glm : Glm F) (s : SceneManager F) :
    (∀ (scaleXYZ positionXYZ : vec3 F) (x y z : F),
      ({ s with m_pShaderManager := none } : SceneManager F).SetTransformations glm scaleXYZ
        x y z positionXYZ = { s with m_pShaderManager := none }) ∧
    (∀ r g b a : F,
      ({ s with m_pShaderManager := none } : SceneManager F).SetShaderColor r g b a
        = { s with m_pShaderManager := none }) ∧
    (∀ textureTag : String,
      ({ s with m_pShaderManager := none } : SceneManager F).SetShaderTexture textureTag
        = .ok { s with m_pShaderManager := none }) ∧
    (∀ u v : F,
      ({ s with m_pShaderManager := none } : SceneManager F).SetTextureUVScale u v
        = { s with m_pShaderManager := none }) ∧
    (∀ (materialTag : String) (material : OBJECT_MATERIAL F),
      ({ s with m_pShaderManager := none, m_objectMaterials := [] } :
        SceneManager F).SetShaderMaterial materialTag material
        = .ok { s with m_pShaderManager := none, m_objectMaterials := [] }) ∧
    (∀ material : OBJECT_MATERIAL F,
      (SceneManager.init none : SceneManager F).DefineObjectMaterials.SetShaderMaterial
        "metal" material = .error .nullPointer) := by
  refine ⟨?_, ?_, ?_, ?_, ?_, ?_⟩
  · intro scaleXYZ positionXYZ x y z
    rfl
  · intro r g b a
    rfl
  · intro textureTag
    rfl
  · intro u v
    rfl
  · intro materialTag material
    rfl
  · intro material
    have hne : (SceneManager.init none : SceneManager F).DefineObjectMaterials.m_objectMaterials
        ≠ [] := by
      simp [SceneManager.DefineObjectMaterials, SceneManager.init]
    have hflag := find_material_nonempty _ "metal" material hne
    unfold SceneManager.SetShaderMaterial
    have hlen : (SceneManager.init none :
        SceneManager F).DefineObjectMaterials.m_objectMaterials.length > 0 :=
      List.length_pos.mpr hne
    simp only [hlen, if_true]
    cases hfm : (SceneManager.init none : SceneManager F).DefineObjectMaterials.FindMaterial
        "metal" material with
    | mk b m =>
      rw [hfm] at hflag
      simp only at hflag
      subst hflag
      rfl


/-! ## The binder -/

/-- With the count within the bank, `FindTextureSlot` returns: either the
first occupied slot carrying the tag, or -1 when there is none. -/
theorem slot_total (s : SceneManager F) (tag : String)
    (hcap : s.m_loadedTextures ≤ s.m_textureIDs.length) :
    (∃ (i : Nat) (e : TEXTURE_INFO), i < s.m_loadedTextures ∧ s.m_textureIDs[i]? = some e ∧
        e.tag = tag ∧ (∀ k e', k < i → s.m_textureIDs[k]? = some e' → e'.tag ≠ tag) ∧
        s.FindTextureSlot tag = .ok (i : Int)) ∨
    ((∀ k e', k < s.m_loadedTextures → s.m_textureIDs[k]? = some e' → e'.tag ≠ tag) ∧
        s.FindTextureSlot tag = .ok (-1)) := by
  classical
  by_cases hex : ∃ i, i < s.m_loadedTextures ∧ ∃ e, s.m_textureIDs[i]? = some e ∧ e.tag = tag
  · left
    obtain ⟨hi, e, hget, htag⟩ := Nat.find_spec hex
    have hfirst : ∀ k e', k < Nat.find hex → s.m_textureIDs[k]? = some e' → e'.tag ≠ tag := by
      intro k e' hk hget' htag'
      exact Nat.find_min hex hk ⟨by omega, e', hget', htag'⟩
    exact ⟨Nat.find hex, e, hi, hget, htag, hfirst,
      slot_loop_hit s tag (Nat.find hex) 0 (Nat.find hex) (-1) e (by omega) hi hget htag
        (fun k e' _ hk hk' => hfirst k e' hk hk')⟩
  · right
    have hnone : ∀ k e', k < s.m_loadedTextures → s.m_textureIDs[k]? = some e' →
        e'.tag ≠ tag := by
      intro k e' hk hget htag
      exact hex ⟨k, hk, e', hget, htag⟩
    exact ⟨hnone, slot_loop_miss s tag hcap s.m_loadedTextures 0 (-1) (by omega)
      (fun k e' _ hk hk' => hnone k e' hk hk')⟩

/-- What a uniform holds after one more write. -/
theorem uniform_write (sh : ShaderManager F) (name n : String) (v : UniformValue F) :
    (sh.write name v).uniform n = if name = n then some v else sh.uniform n := by
  simp [ShaderManager.uniform, ShaderManager.write, List.foldl_append]

/-- Claim C11. With a shader bound (and the count within the bank),
`SetShaderTexture(tag)` writes 1 to the use-texture flag and then writes to
the sampler uniform exactly what `FindTextureSlot(tag)` returns: the index of
the first occupied slot carrying the tag, which is never -1 when some
occupied slot carries it, in particular right after a successful load of
that tag; and -1 when no occupied slot carries it. -/
theorem C11_set_shader_texture (s : SceneManager F) (sh : ShaderManager F) (tag : String)
    (hsh : s.m_pShaderManager = some sh)
    (hcap : s.m_loadedTextures ≤ s.m_textureIDs.length) :
    ∃ slot : Int,
      s.FindTextureSlot tag = .ok slot ∧
      s.SetShaderTexture tag = .ok { s with
        m_pShaderManager := some
          { uniformWrites := sh.uniformWrites ++
              [(g_UseTextureName, .intValue 1), (g_TextureValueName, .sampler2DValue slot)] } } ∧
      ((∀ k e', k < s.m_loadedTextures → s.m_textureIDs[k]? = some e' → e'.tag ≠ tag) →
        slot = -1) ∧
      (∀ (i : Nat) (e : TEXTURE_INFO), i < s.m_loadedTextures → s.m_textureIDs[i]? = some e →
        e.tag = tag → (∀ k e', k < i → s.m_textureIDs[k]? = some e' → e'.tag ≠ tag) →
        slot = (i : Int)) ∧
      (∀ (i : Nat) (e : TEXTURE_INFO), i < s.m_loadedTextures → s.m_textureIDs[i]? = some e →
        e.tag = tag → 0 ≤ slot ∧ slot ≤ (i : Int)) ∧
      (∀ (s0 : SceneManager F) (filename : String) (image : Option Image) (textureID : Nat),
        s0.CreateGLTexture filename tag image textureID = (.ok true, s) →
        0 ≤ slot ∧ slot ≤ (s0.m_loadedTextures : Int)) := by
  have hset : ∀ slot : Int, s.FindTextureSlot tag = .ok slot →
      s.SetShaderTexture tag = .ok { s with
        m_pShaderManager := some
          { uniformWrites := sh.uniformWrites ++
              [(g_UseTextureName, .intValue 1), (g_TextureValueName, .sampler2DValue slot)] } } := by
    intro slot hslot
    simp [SceneManager.SetShaderTexture, hsh, hslot, ShaderManager.setIntValue,
      ShaderManager.setSampler2DValue, ShaderManager.write]
  rcases slot_total s tag hcap with ⟨i, e, hi, hget, htag, hfirst, hfind⟩ | ⟨hnone, hfind⟩
  · have hle : ∀ (j : Nat) (e2 : TEXTURE_INFO), j < s.m_loadedTextures →
        s.m_textureIDs[j]? = some e2 → e2.tag = tag → i ≤ j := by
      intro j e2 _ hget2 htag2
      by_contra hlt
      exact hfirst j e2 (by omega) hget2 htag2
    refine ⟨(i : Int), hfind, hset _ hfind, ?_, ?_, ?_, ?_⟩
    · intro hnone
      exact absurd htag (hnone i e hi hget)
    · intro j e2 hj hget2 htag2 hfirst2
      have h1 : i ≤ j := hle j e2 hj hget2 htag2
      have h2 : j ≤ i := by
        by_contra hlt
        exact hfirst2 i e (by omega) hget htag
      have : i = j := by omega
      rw [this]
    · intro j e2 hj hget2 htag2
      have h1 : i ≤ j := hle j e2 hj hget2 htag2
      omega
    · intro s0 filename image textureID hok
      obtain ⟨hlt, hT, hN, _⟩ := create_ok_true s0 s filename tag image textureID hok
      have hnew : s.m_textureIDs[s0.m_loadedTextures]? = some { tag := tag, ID := textureID } := by
        rw [hT]; simp [hlt]
      have h1 : i ≤ s0.m_loadedTextures := hle _ _ (by omega) hnew rfl
      omega
  · refine ⟨-1, hfind, hset _ hfind, fun _ => rfl, ?_, ?_, ?_⟩
    · intro j e2 hj hget2 htag2 _
      exact absurd htag2 (hnone j e2 hj hget2)
    · intro j e2 hj hget2 htag2
      exact absurd htag2 (hnone j e2 hj hget2)
    · intro s0 filename image textureID hok
      obtain ⟨hlt, hT, hN, _⟩ := create_ok_true s0 s filename tag image textureID hok
      have hnew : s.m_textureIDs[s0.m_loadedTextures]? = some { tag := tag, ID := textureID } := by
        rw [hT]; simp [hlt]
      exact absurd rfl (hnone _ _ (by omega) hnew)


/-- Witness for C11: one texture, "grass", is loaded at slot 0 and a shader
is bound; `SetShaderTexture("grass")` writes the flag and the slot found. -/
theorem C11_set_shader_texture_witness :
    ∃ slot : Int,
      ({ m_pShaderManager := some { uniformWrites := [] }
         m_textureIDs := [{ tag := "grass", ID := 3 }] ++
           List.replicate 15 { tag := "/0", ID := 4294967295 }
         m_loadedTextures := 1
         m_objectMaterials := []
         calls := [] } : SceneManager ℚ).FindTextureSlot "grass" = .ok slot ∧
      (0 ≤ slot ∧ slot ≤ ((0 : Nat) : Int)) :=
  (C11_set_shader_texture
    ({ m_pShaderManager := some { uniformWrites := [] }
       m_textureIDs := [{ tag := "grass", ID := 3 }] ++
         List.replicate 15 { tag := "/0", ID := 4294967295 }
       m_loadedTextures := 1
       m_objectMaterials := []
       calls := [] } : SceneManager ℚ) { uniformWrites := [] } "grass" rfl (by simp)).elim
    (fun slot h => ⟨slot, h.1, h.2.2.2.2.1 0 { tag := "grass", ID := 3 } (by decide) (by simp) rfl⟩)

/-- One statement, executed with a shader bound and the count within the
bank: it returns, keeps the shader bound and the texture registry as it
was, and moves the use-texture flag as its kind says. -/
theorem call_bound [OfScientific F] (glm : Glm F) (s : SceneManager F) (sh : ShaderManager F)
    (c : SceneCall F) (hsh : s.m_pShaderManager = some sh)
    (hcap : s.m_loadedTextures ≤ s.m_textureIDs.length) :
    ∃ (s' : SceneManager F) (sh' : ShaderManager F),
      s.call glm c = .ok s' ∧ s'.m_pShaderManager = some sh' ∧
      s'.m_textureIDs = s.m_textureIDs ∧ s'.m_loadedTextures = s.m_loadedTextures ∧
      (∀ r g b a, c = .SetShaderColor r g b a →
        sh'.uniform g_UseTextureName = some (.intValue 0) ∧
        sh'.uniform g_ColorValueName = some (.vec4Value { r := r, g := g, b := b, a := a })) ∧
      (∀ t, c = .SetShaderTexture t → sh'.uniform g_UseTextureName = some (.intValue 1)) ∧
      ((∀ r g b a, c ≠ .SetShaderColor r g b a) → (∀ t, c ≠ .SetShaderTexture t) →
        sh'.uniform g_UseTextureName = sh.uniform g_UseTextureName) := by
  cases c with
  | SetTransformations scaleXYZ x y z positionXYZ =>
    simp only [SceneManager.call, SceneManager.SetTransformations, hsh]
    refine ⟨_, _, rfl, rfl, rfl, rfl, ?_, ?_, ?_⟩
    · intro r g b a h; cases h
    · intro t h; cases h
    · intro _ _
      simp [ShaderManager.setMat4Value, uniform_write, g_ModelName, g_UseTextureName]
  | SetShaderColor r g b a =>
    simp only [SceneManager.call, SceneManager.SetShaderColor, hsh]
    refine ⟨_, _, rfl, rfl, rfl, rfl, ?_, ?_, ?_⟩
    · intro r2 g2 b2 a2 h
      cases h
      simp [ShaderManager.setIntValue, ShaderManager.setVec4Value, uniform_write,
        g_ColorValueName, g_UseTextureName]
    · intro t h; cases h
    · intro h _
      exact absurd rfl (h r g b a)
  | SetShaderTexture t =>
    rcases slot_total s t hcap with ⟨i, _, _, _, _, _, hfind⟩ | ⟨_, hfind⟩
    · simp only [SceneManager.call, SceneManager.SetShaderTexture, hsh, hfind]
      refine ⟨_, _, rfl, rfl, rfl, rfl, ?_, ?_, ?_⟩
      · intro r g b a h; cases h
      · intro t2 _
        simp [ShaderManager.setIntValue, ShaderManager.setSampler2DValue, uniform_write,
          g_TextureValueName, g_UseTextureName]
      · intro _ h
        exact absurd rfl (h t)
    · simp only [SceneManager.call, SceneManager.SetShaderTexture, hsh, hfind]
      refine ⟨_, _, rfl, rfl, rfl, rfl, ?_, ?_, ?_⟩
      · intro r g b a h; cases h
      · intro t2 _
        simp [ShaderManager.setIntValue, ShaderManager.setSampler2DValue, uniform_write,
          g_TextureValueName, g_UseTextureName]
      · intro _ h
        exact absurd rfl (h t)
  | SetTextureUVScale u v =>
    simp only [SceneManager.call, SceneManager.SetTextureUVScale, hsh]
    refine ⟨_, _, rfl, rfl, rfl, rfl, ?_, ?_, ?_⟩
    · intro r g b a h; cases h
    · intro t h; cases h
    · intro _ _
      simp [ShaderManager.setVec2Value, uniform_write, g_UseTextureName]
  | SetShaderMaterial materialTag material =>
    by_cases hlen : s.m_objectMaterials.length > 0
    · cases hfm : s.FindMaterial materialTag material with
      | mk bReturn m =>
        cases bReturn with
        | true =>
          simp only [SceneManager.call, SceneManager.SetShaderMaterial, hlen, hfm, hsh, if_true]
          refine ⟨_, _, rfl, rfl, rfl, rfl, ?_, ?_, ?_⟩
          · intro r g b a h; cases h
          · intro t h; cases h
          · intro _ _
            simp [ShaderManager.setVec3Value, ShaderManager.setFloatValue, uniform_write,
              g_UseTextureName]
        | false =>
          refine ⟨s, sh, ?_, hsh, rfl, rfl, ?_, ?_, ?_⟩
          · simp [SceneManager.call, SceneManager.SetShaderMaterial, hlen, hfm]
          · intro r g b a h; cases h
          · intro t h; cases h
          · intro _ _; rfl
    · refine ⟨s, sh, ?_, hsh, rfl, rfl, ?_, ?_, ?_⟩
      · simp [SceneManager.call, SceneManager.SetShaderMaterial, hlen]
      · intro r g b a h; cases h
      · intro t h; cases h
      · intro _ _; rfl
  | draw mesh =>
    refine ⟨_, sh, rfl, ?_, rfl, rfl, ?_, ?_, ?_⟩
    · simp only [SceneManager.issue, hsh]
    · intro r g b a h; cases h
    · intro t h; cases h
    · intro _ _; rfl


/-- Running two lists in a row is running their concatenation. -/
theorem run_append [OfScientific F] (glm : Glm F) (xs ys : List (SceneCall F)) :
    ∀ s : SceneManager F,
      s.run glm (xs ++ ys) =
        match s.run glm xs with
        | .ok s' => s'.run glm ys
        | .error e => .error e := by
  induction xs with
  | nil => intro s; rfl
  | cons c cs ih =>
    intro s
    simp only [List.cons_append, SceneManager.run]
    cases s.call glm c with
    | ok s' => exact ih s'
    | error e => rfl

/-- With a shader bound and the count within the bank, every sequence of
statements runs to the end; the shader stays bound and the texture registry
is not touched. -/
theorem run_bound [OfScientific F] (glm : Glm F) (cs : List (SceneCall F)) :
    ∀ (s : SceneManager F) (sh : ShaderManager F), s.m_pShaderManager = some sh →
      s.m_loadedTextures ≤ s.m_textureIDs.length →
      ∃ (s' : SceneManager F) (sh' : ShaderManager F),
        s.run glm cs = .ok s' ∧ s'.m_pShaderManager = some sh' ∧
        s'.m_textureIDs = s.m_textureIDs ∧ s'.m_loadedTextures = s.m_loadedTextures ∧
        ((∀ c ∈ cs, (∀ r g b a, c ≠ .SetShaderColor r g b a) ∧ (∀ t, c ≠ .SetShaderTexture t)) →
          sh'.uniform g_UseTextureName = sh.uniform g_UseTextureName) := by
  induction cs with
  | nil =>
    intro s sh hsh _
    exact ⟨s, sh, rfl, hsh, rfl, rfl, fun _ => rfl⟩
  | cons c cs ih =>
    intro s sh hsh hcap
    obtain ⟨s1, sh1, hcall, hsh1, hT1, hN1, _, _, hkeep1⟩ := call_bound glm s sh c hsh hcap
    obtain ⟨s2, sh2, hrun, hsh2, hT2, hN2, hkeep2⟩ := ih s1 sh1 hsh1 (by rw [hT1, hN1]; exact hcap)
    refine ⟨s2, sh2, ?_, hsh2, by rw [hT2, hT1], by rw [hN2, hN1], ?_⟩
    · simp only [SceneManager.run, hcall, hrun]
    · intro hall
      rw [hkeep2 (fun c' hc' => hall c' (List.mem_cons_of_mem c hc')),
        hkeep1 (hall c (List.mem_cons_self c cs)).1 (hall c (List.mem_cons_self c cs)).2]

/-- Claim C12. With a shader bound (and the count within the bank), take any
sequence of binder and draw calls `pre`, then one call of `SetShaderColor`
or `SetShaderTexture`, then any sequence `rest` containing neither of the
two. The whole sequence runs to the end, and the use-texture flag then holds
0 (false) if the call was `SetShaderColor` and 1 (true) if it was
`SetShaderTexture`; `rest` alone leaves the flag as it was.
`SetShaderColor(r,g,b,a)` writes 0 to the flag and exactly (r,g,b,a) to the
object-colour uniform. -/
theorem C12_use_texture_flag [OfScientific F] (glm : Glm F) (s : SceneManager F)
    (sh : ShaderManager F) (pre rest : List (SceneCall F))
    (hsh : s.m_pShaderManager = some sh)
    (hcap : s.m_loadedTextures ≤ s.m_textureIDs.length)
    (hrest : ∀ c ∈ rest,
      (∀ r g b a, c ≠ .SetShaderColor r g b a) ∧ (∀ t, c ≠ .SetShaderTexture t)) :
    (∀ r g b a : F, ∃ (s' : SceneManager F) (sh' : ShaderManager F),
      s.run glm (pre ++ [.SetShaderColor r g b a] ++ rest) = .ok s' ∧
      s'.m_pShaderManager = some sh' ∧
      sh'.uniform g_UseTextureName = some (.intValue 0)) ∧
    (∀ t : String, ∃ (s' : SceneManager F) (sh' : ShaderManager F),
      s.run glm (pre ++ [.SetShaderTexture t] ++ rest) = .ok s' ∧
      s'.m_pShaderManager = some sh' ∧
      sh'.uniform g_UseTextureName = some (.intValue 1)) ∧
    (∃ (s' : SceneManager F) (sh' : ShaderManager F),
      s.run glm rest = .ok s' ∧ s'.m_pShaderManager = some sh' ∧
      sh'.uniform g_UseTextureName = sh.uniform g_UseTextureName) ∧
    (∀ r g b a : F,
      s.SetShaderColor r g b a = { s with
        m_pShaderManager := some
          { uniformWrites := sh.uniformWrites ++
              [(g_UseTextureName, .intValue 0),
               (g_ColorValueName, .vec4Value { r := r, g := g, b := b, a := a })] } }) := by
  have hmid : ∀ (c : SceneCall F) (v : Int),
      (∀ (t : SceneManager F) (th : ShaderManager F), t.m_pShaderManager = some th →
        t.m_loadedTextures ≤ t.m_textureIDs.length →
        ∃ (t' : SceneManager F) (th' : ShaderManager F), t.call glm c = .ok t' ∧
          t'.m_pShaderManager = some th' ∧ t'.m_textureIDs = t.m_textureIDs ∧
          t'.m_loadedTextures = t.m_loadedTextures ∧
          th'.uniform g_UseTextureName = some (.intValue v)) →
      ∃ (s' : SceneManager F) (sh' : ShaderManager F),
        s.run glm (pre ++ [c] ++ rest) = .ok s' ∧ s'.m_pShaderManager = some sh' ∧
        sh'.uniform g_UseTextureName = some (.intValue v) := by
    intro c v hc
    obtain ⟨s1, sh1, hrun1, hsh1, hT1, hN1, _⟩ := run_bound glm pre s sh hsh hcap
    have hcap1 : s1.m_loadedTextures ≤ s1.m_textureIDs.length := by rw [hT1, hN1]; exact hcap
    obtain ⟨s2, sh2, hcall, hsh2, hT2, hN2, hflag⟩ := hc s1 sh1 hsh1 hcap1
    have hcap2 : s2.m_loadedTextures ≤ s2.m_textureIDs.length := by rw [hT2, hN2]; exact hcap1
    obtain ⟨s3, sh3, hrun3, hsh3, _, _, hkeep⟩ := run_bound glm rest s2 sh2 hsh2 hcap2
    refine ⟨s3, sh3, ?_, hsh3, ?_⟩
    · rw [run_append, run_append, hrun1]
      simp only [SceneManager.run, hcall, hrun3]
    · rw [hkeep hrest, hflag]
  refine ⟨?_, ?_, ?_, ?_⟩
  · intro r g b a
    refine hmid _ 0 ?_
    intro t th hth hcapt
    obtain ⟨t', th', h1, h2, h3, h4, h5, _, _⟩ :=
      call_bound glm t th (.SetShaderColor r g b a) hth hcapt
    exact ⟨t', th', h1, h2, h3, h4, (h5 r g b a rfl).1⟩
  · intro tag
    refine hmid _ 1 ?_
    intro t th hth hcapt
    obtain ⟨t', th', h1, h2, h3, h4, _, h6, _⟩ :=
      call_bound glm t th (.SetShaderTexture tag) hth hcapt
    exact ⟨t', th', h1, h2, h3, h4, h6 tag rfl⟩
  · obtain ⟨s3, sh3, hrun3, hsh3, _, _, hkeep⟩ := run_bound glm rest s sh hsh hcap
    exact ⟨s3, sh3, hrun3, hsh3, hkeep hrest⟩
  · intro r g b a
    simp [SceneManager.SetShaderColor, hsh, ShaderManager.setIntValue,
      ShaderManager.setVec4Value, ShaderManager.write]


/-- Witness for C12: a shader is bound on a fresh registry; a transformation
and a texture call come first, then `SetShaderColor(1,0,0,1)`, then a
material call and a draw. The flag ends at 0. -/
theorem C12_use_texture_flag_witness :
    ∃ (s' : SceneManager ℚ) (sh' : ShaderManager ℚ),
      (SceneManager.init (some { uniformWrites := [] }) : SceneManager ℚ).run
        { radians := fun d => d, scale := fun _ => 1, rotate := fun _ _ => 1
          translate := fun _ => 1, mul := fun a b => a * b }
        ([.SetTransformations ⟨1, 1, 1⟩ 0 0 0 ⟨0, 0, 0⟩, .SetShaderTexture "grass"] ++
          [.SetShaderColor 1 0 0 1] ++
          [.SetShaderMaterial "ground"
            { ambientColor := ⟨0, 0, 0⟩, ambientStrength := 0, diffuseColor := ⟨0, 0, 0⟩
              specularColor := ⟨0, 0, 0⟩, shininess := 0, tag := "" },
           .draw .DrawPlaneMesh]) = .ok s' ∧
      s'.m_pShaderManager = some sh' ∧
      sh'.uniform g_UseTextureName = some (.intValue 0) :=
  (C12_use_texture_flag
    { radians := fun d => d, scale := fun _ => 1, rotate := fun _ _ => 1
      translate := fun _ => 1, mul := fun a b => a * b }
    (SceneManager.init (some { uniformWrites := [] }) : SceneManager ℚ) { uniformWrites := [] }
    [.SetTransformations ⟨1, 1, 1⟩ 0 0 0 ⟨0, 0, 0⟩, .SetShaderTexture "grass"]
    [.SetShaderMaterial "ground"
        { ambientColor := ⟨0, 0, 0⟩, ambientStrength := 0, diffuseColor := ⟨0, 0, 0⟩
          specularColor := ⟨0, 0, 0⟩, shininess := 0, tag := "" },
      .draw .DrawPlaneMesh]
    rfl (by simp [SceneManager.init])
    (by
      intro c hc
      simp only [List.mem_cons, List.mem_singleton, List.not_mem_nil, or_false] at hc
      rcases hc with h | h <;> subst h <;>
        exact ⟨fun _ _ _ _ h => (nomatch h), fun _ h => (nomatch h)⟩)).1 1 0 0 1

/-- The loop of `BindGLTextures` from counter `i`, with `d` slots to go. -/
theorem bind_loop_spec :
    ∀ (d i : Nat) (t : SceneManager F), t.m_loadedTextures = i + d →
      t.m_loadedTextures ≤ t.m_textureIDs.length →
      ∃ new : List Call,
        SceneManager.BindGLTextures.loop t i = (.ok (), { t with calls := t.calls ++ new }) ∧
        new.length = 2 * d ∧
        ∀ (k : Nat) (e : TEXTURE_INFO), k < d → t.m_textureIDs[i + k]? = some e →
          new[2 * k]? = some (.glActiveTexture (GL_TEXTURE0 + (i + k))) ∧
          new[2 * k + 1]? = some (.glBindTexture .GL_TEXTURE_2D e.ID) := by
  intro d
  induction d with
  | zero =>
    intro i t hd _
    refine ⟨[], ?_, rfl, fun k e hk => absurd hk (by omega)⟩
    rw [SceneManager.BindGLTextures.loop]
    have : ¬ i < t.m_loadedTextures := by omega
    simp [this]
  | succ d ih =>
    intro i t hd hcap
    have hi : i < t.m_loadedTextures := by omega
    have hilen : i < t.m_textureIDs.length := by omega
    obtain ⟨new1, hloop, hlen, hpt⟩ := ih (i + 1)
      (t.issue [.glActiveTexture (GL_TEXTURE0 + i),
        .glBindTexture .GL_TEXTURE_2D (t.m_textureIDs[i]).ID])
      (by simp only [SceneManager.issue]; omega) (by simp only [SceneManager.issue]; exact hcap)
    refine ⟨.glActiveTexture (GL_TEXTURE0 + i) ::
      .glBindTexture .GL_TEXTURE_2D (t.m_textureIDs[i]).ID :: new1, ?_, ?_, ?_⟩
    · rw [SceneManager.BindGLTextures.loop]
      simp only [hi, dite_true, List.getElem?_eq_getElem hilen]
      rw [hloop]
      simp [SceneManager.issue]
    · simp only [List.length_cons, hlen]; omega
    · intro k e hk hget
      cases k with
      | zero =>
        simp only [Nat.add_zero, List.getElem?_eq_getElem hilen, Option.some.injEq] at hget
        subst hget
        simp
      | succ k =>
        have hget1 : (t.issue [.glActiveTexture (GL_TEXTURE0 + i),
            .glBindTexture .GL_TEXTURE_2D (t.m_textureIDs[i]).ID]).m_textureIDs[i + 1 + k]?
            = some e := by
          simp only [SceneManager.issue]
          rw [← hget]
          congr 1
          omega
        obtain ⟨h1, h2⟩ := hpt k e (by omega) hget1
        have e1 : 2 * (k + 1) = 2 * k + 1 + 1 := by omega
        have e3 : i + 1 + k = i + (k + 1) := by omega
        rw [e1]
        simp only [List.getElem?_cons_succ]
        rw [h1, h2, e3]
        exact ⟨rfl, rfl⟩

/-- Claim C15. For a registry with `n = m_loadedTextures` loaded textures
(`n` within the 16-slot bank), `BindGLTextures` returns having issued
exactly `2 n` calls: for `i` from 0 to `n - 1` in increasing order,
`glActiveTexture(GL_TEXTURE0 + i)` followed by `glBindTexture(GL_TEXTURE_2D,
m_textureIDs[i].ID)`, and nothing for the unoccupied slots. The count and
every entry are unchanged. -/
theorem C15_bind_textures (s : SceneManager F)
    (hcap : s.m_loadedTextures ≤ s.m_textureIDs.length) :
    ∃ new : List Call,
      s.BindGLTextures = (.ok (), { s with calls := s.calls ++ new }) ∧
      new.length = 2 * s.m_loadedTextures ∧
      (∀ (i : Nat) (e : TEXTURE_INFO), i < s.m_loadedTextures → s.m_textureIDs[i]? = some e →
        new[2 * i]? = some (.glActiveTexture (GL_TEXTURE0 + i)) ∧
        new[2 * i + 1]? = some (.glBindTexture .GL_TEXTURE_2D e.ID)) ∧
      s.BindGLTextures.2.m_loadedTextures = s.m_loadedTextures ∧
      s.BindGLTextures.2.m_textureIDs = s.m_textureIDs := by
  obtain ⟨new, hloop, hlen, hpt⟩ := bind_loop_spec s.m_loadedTextures 0 s (by omega) hcap
  have hB : s.BindGLTextures = (.ok (), { s with calls := s.calls ++ new }) := hloop
  refine ⟨new, hB, hlen, ?_, by rw [hB], by rw [hB]⟩
  intro i e hi hget
  have := hpt i e hi (by simpa using hget)
  simpa using this

/-- Witness for C15: two textures loaded, handles 5 and 9; the four calls
are unit 0 / handle 5, unit 1 / handle 9. -/
theorem C15_bind_textures_witness :
    ∃ new : List Call,
      ({ m_pShaderManager := none
         m_textureIDs := [{ tag := "shed", ID := 5 }, { tag := "roof", ID := 9 }] ++
           List.replicate 14 { tag := "/0", ID := 4294967295 }
         m_loadedTextures := 2
         m_objectMaterials := []
         calls := [] } : SceneManager ℚ).BindGLTextures.2.calls = [] ++ new ∧
      new.length = 2 * 2 ∧
      new[2 * 1]? = some (.glActiveTexture (GL_TEXTURE0 + 1)) ∧
      new[2 * 1 + 1]? = some (.glBindTexture .GL_TEXTURE_2D 9) :=
  (C15_bind_textures
    ({ m_pShaderManager := none
       m_textureIDs := [{ tag := "shed", ID := 5 }, { tag := "roof", ID := 9 }] ++
         List.replicate 14 { tag := "/0", ID := 4294967295 }
       m_loadedTextures := 2
       m_objectMaterials := []
       calls := [] } : SceneManager ℚ) (by simp)).elim
    (fun new h => ⟨new, by rw [h.1], h.2.1,
      h.2.2.1 1 { tag := "roof", ID := 9 } (by decide) (by simp)⟩)


/-- The loop of `DestroyGLTextures` never changes the count, and every call
it makes is a `glGenTextures`. -/
theorem destroy_loop_spec (genName : Nat → Nat) :
    ∀ (d i : Nat) (t : SceneManager F), t.m_loadedTextures - i ≤ d →
      (SceneManager.DestroyGLTextures.loop t genName i).2.m_loadedTextures
        = t.m_loadedTextures ∧
      ∀ c ∈ (SceneManager.DestroyGLTextures.loop t genName i).2.calls,
        c ∈ t.calls ∨ ∃ k, c = .glGenTextures 1 (genName k) := by
  intro d
  induction d with
  | zero =>
    intro i t hd
    rw [SceneManager.DestroyGLTextures.loop]
    have : ¬ i < t.m_loadedTextures := by omega
    simp only [this, dite_false]
    exact ⟨by trivial, fun c hc => Or.inl hc⟩
  | succ d ih =>
    intro i t hd
    rw [SceneManager.DestroyGLTextures.loop]
    by_cases hi : i < t.m_loadedTextures
    · simp only [hi, dite_true]
      cases hget : t.m_textureIDs[i]? with
      | none => exact ⟨by trivial, fun c hc => Or.inl hc⟩
      | some entry =>
        simp only
        obtain ⟨h1, h2⟩ := ih (i + 1)
          { t with
            m_textureIDs := t.m_textureIDs.set i { entry with ID := genName i }
            calls := t.calls ++ [.glGenTextures 1 (genName i)] }
          (by simp only; omega)
        refine ⟨h1, ?_⟩
        intro c hc
        rcases h2 c hc with h | h
        · simp only [List.mem_append, List.mem_singleton] at h
          rcases h with h | h
          · exact Or.inl h
          · exact Or.inr ⟨i, h⟩
        · exact Or.inr h
    · simp only [hi, dite_false]
      exact ⟨by trivial, fun c hc => Or.inl hc⟩

/-- Claim C14, a defect of the code. `DestroyGLTextures` releases nothing
and clears nothing: whatever the registry, it leaves `m_loadedTextures` as it
was and every call it makes is `glGenTextures`, which writes a new name over
the stored handle. After one load tagged "shed" (handle 1) and
`DestroyGLTextures` (the driver generating the name 2), the count is still 1,
slot 0 holds ("shed", 2), `FindTextureSlot("shed")` returns 0 and
`FindTextureID("shed")` returns 2. -/
theorem C14_destroy_generates_instead_of_releasing :
    (∀ (s : SceneManager F) (genName : Nat → Nat),
      (s.DestroyGLTextures genName).2.m_loadedTextures = s.m_loadedTextures ∧
      ∀ c ∈ (s.DestroyGLTextures genName).2.calls,
        c ∈ s.calls ∨ ∃ k, c = .glGenTextures 1 (genName k)) ∧
    ((((SceneManager.init none : SceneManager F).CreateGLTexture "a.png" "shed"
        (some { pixels := 1, width := 2, height := 2, colorChannels := 4 })
        1).2.DestroyGLTextures (fun _ => 2)).1 = .ok () ∧
     (((SceneManager.init none : SceneManager F).CreateGLTexture "a.png" "shed"
        (some { pixels := 1, width := 2, height := 2, colorChannels := 4 })
        1).2.DestroyGLTextures (fun _ => 2)).2.m_loadedTextures = 1 ∧
     (((SceneManager.init none : SceneManager F).CreateGLTexture "a.png" "shed"
        (some { pixels := 1, width := 2, height := 2, colorChannels := 4 })
        1).2.DestroyGLTextures (fun _ => 2)).2.m_textureIDs[0]?
        = some { tag := "shed", ID := 2 } ∧
     (((SceneManager.init none : SceneManager F).CreateGLTexture "a.png" "shed"
        (some { pixels := 1, width := 2, height := 2, colorChannels := 4 })
        1).2.DestroyGLTextures (fun _ => 2)).2.calls =
       ((SceneManager.init none : SceneManager F).CreateGLTexture "a.png" "shed"
        (some { pixels := 1, width := 2, height := 2, colorChannels := 4 })
        1).2.calls ++ [.glGenTextures 1 2] ∧
     (((SceneManager.init none : SceneManager F).CreateGLTexture "a.png" "shed"
        (some { pixels := 1, width := 2, height := 2, colorChannels := 4 })
        1).2.DestroyGLTextures (fun _ => 2)).2.FindTextureSlot "shed" = .ok 0 ∧
     (((SceneManager.init none : SceneManager F).CreateGLTexture "a.png" "shed"
        (some { pixels := 1, width := 2, height := 2, colorChannels := 4 })
        1).2.DestroyGLTextures (fun _ => 2)).2.FindTextureID "shed" = .ok 2) := by
  constructor
  · intro s genName
    exact destroy_loop_spec genName s.m_loadedTextures 0 s (by omega)
  · refine ⟨?_, ?_, ?_, ?_, ?_, ?_⟩ <;>
      simp [SceneManager.CreateGLTexture, SceneManager.registerTexture, SceneManager.issue,
        SceneManager.init, SceneManager.DestroyGLTextures, SceneManager.DestroyGLTextures.loop,
        SceneManager.FindTextureSlot, SceneManager.FindTextureSlot.loop,
        SceneManager.FindTextureID, SceneManager.FindTextureID.loop, int_of_GLuint]


/-! ## The model matrix -/

/-- In exact arithmetic `glm::rotate` about the x axis is `RotateX`. -/
theorem exact_rotate_x (a : ℝ) :
    (Glm.exact Real.pi Real.cos Real.sin Real.sqrt).rotate a ⟨1.0, 0.0, 0.0⟩
      = RotateX (Real.cos a) (Real.sin a) := by
  simp only [Glm.exact, RotateX]
  norm_num

/-- In exact arithmetic `glm::rotate` about the y axis is `RotateY`. -/
theorem exact_rotate_y (a : ℝ) :
    (Glm.exact Real.pi Real.cos Real.sin Real.sqrt).rotate a ⟨0.0, 1.0, 0.0⟩
      = RotateY (Real.cos a) (Real.sin a) := by
  simp only [Glm.exact, RotateY]
  norm_num

/-- In exact arithmetic `glm::rotate` about the z axis is `RotateZ`. -/
theorem exact_rotate_z (a : ℝ) :
    (Glm.exact Real.pi Real.cos Real.sin Real.sqrt).rotate a ⟨0.0, 0.0, 1.0⟩
      = RotateZ (Real.cos a) (Real.sin a) := by
  simp only [Glm.exact, RotateZ]
  norm_num

/-- No rotation at all is the identity matrix. -/
theorem rotate_zero_angle :
    (RotateX 1 0 : mat4 ℝ) = 1 ∧ (RotateZ 1 0 : mat4 ℝ) = 1 := by
  constructor <;>
  · ext i j
    fin_cases i <;> fin_cases j <;> simp [RotateX, RotateZ, Matrix.vecHead, Matrix.vecTail]

/-- Claim C13. For every scale, angles in degrees and position,
`SetTransformations` writes to the uniform "model" the product
translation * rotationX * rotationY * rotationZ * scale, the rotations being
taken at the angles converted to radians, in that order, whatever the glm
functions compute. With glm in exact arithmetic over the reals that product
is `Translate p * RotateX * RotateY * RotateZ * Scale v` at the cosines and
sines of the converted angles; for scale (2,1,1), rotation (0,90,0) and
position (1,0,0) it equals `Translate(1,0,0) * RotateY(90 degrees) *
Scale(2,1,1)` and maps the corner (1,1,1) to (2,1,-2). -/
theorem C13_model_matrix [OfScientific F] (glm : Glm F) (s : SceneManager F)
    (sh : ShaderManager F) (scaleXYZ positionXYZ : vec3 F) (x y z : F) :
    (({ s with m_pShaderManager := some sh } : SceneManager F).SetTransformations glm scaleXYZ
        x y z positionXYZ =
      { s with
        m_pShaderManager := some
          { uniformWrites := sh.uniformWrites ++
              [(g_ModelName, .mat4Value
                (glm.mul (glm.mul (glm.mul (glm.mul (glm.translate positionXYZ)
                  (glm.rotate (glm.radians x) ⟨1.0, 0.0, 0.0⟩))
                  (glm.rotate (glm.radians y) ⟨0.0, 1.0, 0.0⟩))
                  (glm.rotate (glm.radians z) ⟨0.0, 0.0, 1.0⟩))
                  (glm.scale scaleXYZ)))] } }) ∧
    (∀ (t : SceneManager ℝ) (th : ShaderManager ℝ) (v p : vec3 ℝ) (dx dy dz : ℝ),
      ({ t with m_pShaderManager := some th } : SceneManager ℝ).SetTransformations
          (Glm.exact Real.pi Real.cos Real.sin Real.sqrt) v dx dy dz p =
        { t with
          m_pShaderManager := some
            { uniformWrites := th.uniformWrites ++
                [(g_ModelName, .mat4Value
                  (Translate p *
                    RotateX (Real.cos (dx * (Real.pi / 180))) (Real.sin (dx * (Real.pi / 180))) *
                    RotateY (Real.cos (dy * (Real.pi / 180))) (Real.sin (dy * (Real.pi / 180))) *
                    RotateZ (Real.cos (dz * (Real.pi / 180))) (Real.sin (dz * (Real.pi / 180))) *
                    Scale v))] } }) ∧
    (∀ (t : SceneManager ℝ) (th : ShaderManager ℝ),
      ({ t with m_pShaderManager := some th } : SceneManager ℝ).SetTransformations
          (Glm.exact Real.pi Real.cos Real.sin Real.sqrt) ⟨2, 1, 1⟩ 0 90 0 ⟨1, 0, 0⟩ =
        { t with
          m_pShaderManager := some
            { uniformWrites := th.uniformWrites ++
                [(g_ModelName, .mat4Value
                  (Translate ⟨1, 0, 0⟩ * RotateY 0 1 * Scale ⟨2, 1, 1⟩))] } }) ∧
    ((Translate ⟨1, 0, 0⟩ * RotateY 0 1 * Scale ⟨2, 1, 1⟩ : mat4 ℝ).mulVec ![1, 1, 1, 1]
      = ![2, 1, -2, 1]) := by
  have hgen : ∀ (t : SceneManager ℝ) (th : ShaderManager ℝ) (v p : vec3 ℝ) (dx dy dz : ℝ),
      ({ t with m_pShaderManager := some th } : SceneManager ℝ).SetTransformations
          (Glm.exact Real.pi Real.cos Real.sin Real.sqrt) v dx dy dz p =
        { t with
          m_pShaderManager := some
            { uniformWrites := th.uniformWrites ++
                [(g_ModelName, .mat4Value
                  (Translate p *
                    RotateX (Real.cos (dx * (Real.pi / 180))) (Real.sin (dx * (Real.pi / 180))) *
                    RotateY (Real.cos (dy * (Real.pi / 180))) (Real.sin (dy * (Real.pi / 180))) *
                    RotateZ (Real.cos (dz * (Real.pi / 180))) (Real.sin (dz * (Real.pi / 180))) *
                    Scale v))] } } := by
    intro t th v p dx dy dz
    simp only [SceneManager.SetTransformations, exact_rotate_x, exact_rotate_y, exact_rotate_z,
      ShaderManager.setMat4Value, ShaderManager.write]
    rfl
  refine ⟨rfl, hgen, ?_, ?_⟩
  · intro t th
    rw [hgen]
    have h90 : (90 : ℝ) * (Real.pi / 180) = Real.pi / 2 := by ring
    simp only [zero_mul, Real.cos_zero, Real.sin_zero, h90, Real.cos_pi_div_two,
      Real.sin_pi_div_two, rotate_zero_angle.1, rotate_zero_angle.2, mul_one]
  · ext i
    fin_cases i <;>
      simp [Translate, RotateY, Scale, Matrix.mulVec, Matrix.mul_apply, Fin.sum_univ_four,
        Matrix.dotProduct]
    norm_num


/-! ## The prepared scene -/

end Scene
